import Mathlib

/-!
Shallow embedding of the course-generation pipeline of the
`youtube-course-generator` repository, together with proofs about the
claims of its specification.

Main modelled sources:
* `src/utils/metrics.py` (`ProcessingMetrics` success flags),
* `src/app.py` (`process_video`, `extract_video_metadata`,
  `extract_transcript`, `generate_course_content`,
  `create_fallback_course`, `calculate_quality_score`),
* `src/services/ai_service.py` (`_validate_and_format_course`),
* `src/utils/fallback_generator.py` (`FallbackGenerator`),
* `src/services/course_generator.py` (`generate_structured_fallback`),
* `src/utils/validators.py` (`validate_youtube_url`, `extract_video_id`).

Python machine-level details that the claims do not touch (logging,
sockets, HTTP) are abstracted away; every nondeterministic input of the
code (network results, exceptions, the wall clock) is an explicit
parameter of the embedding, so all definitions are pure and executable.
-/

namespace YTCourse

/-! ## Data model

`Activity`, `Day` and `Course` mirror the dictionaries built by the
generators (`src/utils/fallback_generator.py`,
`src/services/course_generator.py`).  Optional dictionary keys are
`Option`-valued. -/

structure Activity where
  type : String
  description : String
  time_estimate : String
  deriving Repr, DecidableEq

structure Day where
  day : Nat
  title : String
  objectives : List String
  content_summary : String
  activities : List Activity
  key_takeaways : List String
  homework : Option String
  estimated_time : String
  deriving Repr, DecidableEq

/-- `fallback_info.data_available` sub-dictionary of
`FallbackGenerator.create_basic_course`. -/
structure DataAvailable where
  video_info : Bool
  transcript : Bool
  deriving Repr, DecidableEq

/-- `fallback_info` block attached by `FallbackGenerator.create_basic_course`;
`timestamp` holds the `datetime.utcnow().isoformat()` reading. -/
structure FallbackInfo where
  generated_by : String
  reason : String
  timestamp : String
  data_available : DataAvailable
  deriving Repr, DecidableEq

structure Course where
  course_title : String
  course_description : String
  youtube_url : String
  target_audience : String
  estimated_total_time : String
  difficulty_level : String
  days : List Day
  final_project : String
  resources : List String
  assessment_criteria : String
  fallback_info : Option FallbackInfo
  deriving Repr, DecidableEq

/-! ## ProcessingMetrics (src/utils/metrics.py)

Only the per-layer success booleans are relevant to the claims; they are
all initialised to `False` in `ProcessingMetrics.__init__`. -/

structure Metrics where
  youtube_api_success : Bool := false
  backup_api_success : Bool := false
  scraper_success : Bool := false
  apify_success : Bool := false
  youtube_transcript_success : Bool := false
  backup_transcript_success : Bool := false
  openrouter_success : Bool := false
  claude_success : Bool := false
  fallback_generator_success : Bool := false
  deriving Repr, DecidableEq

/-- The freshly constructed `ProcessingMetrics()` of a request: every
success flag is `False`. -/
def Metrics.init : Metrics := {}

/-! ## String helpers

Python string operations (`str.lower`, substring containment via `in`,
`str.replace`/`format`, slicing, `re.findall(r"\d+", ...)`) are modelled
by explicit character-list recursions, so that every definition reduces
inside the kernel.  As in the source, only ASCII text is relevant. -/

/-- ASCII case folding: the effect of Python `str.lower()` on the ASCII
letters occurring in this program. -/
def lowerChar (c : Char) : Char :=
  if 'A' ≤ c ∧ c ≤ 'Z' then Char.ofNat (c.toNat + 32) else c

def pyLower (s : String) : String := ⟨s.data.map lowerChar⟩

/-- `startsWithCL pat s`: `pat` is a prefix of `s` (character lists). -/
def startsWithCL : List Char → List Char → Bool
  | [], _ => true
  | _ :: _, [] => false
  | a :: as, b :: bs => a == b && startsWithCL as bs

/-- `containsCL pat s`: Python `pat in s` (substring containment). -/
def containsCL (pat : List Char) : List Char → Bool
  | [] => startsWithCL pat []
  | c :: rest => startsWithCL pat (c :: rest) || containsCL pat rest

/-- Python `needle in hay` on strings. -/
def pyIn (needle hay : String) : Bool := containsCL needle.data hay.data

/-- Python `s[:n]` for strings. -/
def pySlice (s : String) (n : Nat) : String := ⟨s.data.take n⟩

/-- Non-overlapping left-to-right substring replacement, the effect of
`'...'.format(title=title)` on the `"{title}"` placeholder (and of
`str.replace`).  The structural `fuel` argument starts at the input
length and strictly dominates it, so the `fuel = 0` branch is never the
one that answers. -/
def replaceCLGo (pat rep : List Char) : Nat → List Char → List Char
  | 0, s => s
  | fuel + 1, s =>
    match s with
    | [] => []
    | c :: rest =>
      if pat ≠ [] ∧ startsWithCL pat (c :: rest) then
        rep ++ replaceCLGo pat rep fuel ((c :: rest).drop pat.length)
      else
        c :: replaceCLGo pat rep fuel rest

def replaceCL (pat rep s : List Char) : List Char :=
  replaceCLGo pat rep s.length s

def pyReplace (s pat rep : String) : String := ⟨replaceCL pat.data rep.data s.data⟩

/-- Value of a digit character. -/
def digitVal (c : Char) : Nat := c.toNat - 48

/-- Maximal runs of consecutive digits of a string, as numbers, in
order: Python `re.findall(r"\d+", s)` followed by `int`. `cur` holds the
digits of the run in progress, most recent first. -/
def digitRunsGo (cur : List Char) : List Char → List Nat
  | [] =>
    if cur.isEmpty then [] else [cur.reverse.foldl (fun n c => 10 * n + digitVal c) 0]
  | c :: rest =>
    if c.isDigit then digitRunsGo (c :: cur) rest
    else if cur.isEmpty then digitRunsGo [] rest
    else cur.reverse.foldl (fun n c => 10 * n + digitVal c) 0 :: digitRunsGo [] rest

def digitRuns (s : String) : List Nat := digitRunsGo [] s.data

/-- Truthiness of a Python string-or-None value. -/
def optTruthy : Option String → Bool
  | some s => !s.isEmpty
  | none => false

/-- Rendering of a Python string-or-None value inside an f-string. -/
def pyStrOf : Option String → String
  | some s => s
  | none => "None"

/-! ## FallbackGenerator (src/utils/fallback_generator.py)

`create_basic_course` and its helpers.  The only run-dependent value in
the source is `datetime.utcnow().isoformat()`; it is made an explicit
`now` parameter. -/

/-- One entry of `FallbackGenerator._load_course_templates`. -/
structure Template where
  target_audience : String
  difficulty_level : String
  final_project : String
  daily_focus : List String
  deriving Repr, DecidableEq

def educationalTemplate : Template :=
  { target_audience := "Students and lifelong learners"
    difficulty_level := "Beginner to Intermediate"
    final_project := "Create a presentation summarizing key concepts from \"{title}\""
    daily_focus :=
      ["Introduction and Overview", "Core Concepts - Part 1",
       "Core Concepts - Part 2", "Practical Applications", "Advanced Topics",
       "Integration and Practice", "Mastery and Review"] }

def tutorialTemplate : Template :=
  { target_audience := "Practitioners looking to learn new skills"
    difficulty_level := "Beginner"
    final_project := "Complete your own version of the project shown in \"{title}\""
    daily_focus :=
      ["Setup and Preparation", "Basic Techniques", "Building Foundation",
       "Intermediate Skills", "Advanced Techniques", "Project Development",
       "Completion and Review"] }

def technicalTemplate : Template :=
  { target_audience := "Technical professionals and developers"
    difficulty_level := "Intermediate to Advanced"
    final_project := "Implement the concepts from \"{title}\" in a real project"
    daily_focus :=
      ["Technical Overview", "Core Technologies", "Implementation Basics",
       "Advanced Implementation", "Best Practices", "Optimization and Testing",
       "Deployment and Maintenance"] }

def creativeTemplate : Template :=
  { target_audience := "Creative professionals and enthusiasts"
    difficulty_level := "All levels"
    final_project := "Create an original work inspired by \"{title}\""
    daily_focus :=
      ["Creative Inspiration", "Fundamental Techniques", "Skill Development",
       "Creative Process", "Advanced Techniques", "Portfolio Development",
       "Presentation and Critique"] }

def businessTemplate : Template :=
  { target_audience := "Business professionals and entrepreneurs"
    difficulty_level := "Intermediate"
    final_project := "Develop a business plan incorporating insights from \"{title}\""
    daily_focus :=
      ["Business Overview", "Key Concepts", "Strategy Development",
       "Implementation Planning", "Advanced Strategies", "Case Study Analysis",
       "Action Plan Creation"] }

def generalTemplate : Template :=
  { target_audience := "General audience interested in learning"
    difficulty_level := "Beginner"
    final_project := "Apply the main concepts from \"{title}\" to your personal interests"
    daily_focus :=
      ["Introduction and Context", "Understanding Key Concepts",
       "Exploring Applications", "Hands-on Practice", "Deeper Understanding",
       "Real-world Application", "Integration and Next Steps"] }

/-- The six values of the `self.templates` dictionary. -/
def allTemplates : List Template :=
  [educationalTemplate, tutorialTemplate, technicalTemplate,
   creativeTemplate, businessTemplate, generalTemplate]

/-- `self.templates.get(course_type, self.templates['general'])`. -/
def getTemplate (courseType : String) : Template :=
  if courseType = "educational" then educationalTemplate
  else if courseType = "tutorial" then tutorialTemplate
  else if courseType = "technical" then technicalTemplate
  else if courseType = "creative" then creativeTemplate
  else if courseType = "business" then businessTemplate
  else generalTemplate

/-- Keyword table of `_determine_course_type`, in dictionary insertion
order. -/
def typeKeywords : List (String × List String) :=
  [("tutorial", ["tutorial", "how to", "step by step", "guide", "walkthrough"]),
   ("technical", ["code", "programming", "development", "api", "software", "algorithm"]),
   ("creative", ["design", "art", "creative", "drawing", "music", "video editing"]),
   ("business", ["business", "marketing", "sales", "entrepreneur", "strategy", "finance"]),
   ("educational", ["learn", "education", "study", "lesson", "course", "teach"])]

/-- Python `max(d, key=d.get)` over an association list in iteration
order: the first key attaining the maximal value. -/
def argmaxFirst : List (String × Nat) → Option (String × Nat)
  | [] => none
  | p :: rest =>
    match argmaxFirst rest with
    | none => some p
    | some q => if q.2 > p.2 then some q else some p

/-- `FallbackGenerator._determine_course_type`. -/
def determineCourseType (title description : String) (transcript : Option String) :
    String :=
  let content := pyLower (title ++ " " ++ description ++ " " ++ pyStrOf transcript)
  let scores := typeKeywords.map fun tk =>
    (tk.1, tk.2.countP fun keyword => pyIn keyword content)
  match argmaxFirst scores with
  | some best => if best.2 > 0 then best.1 else "general"
  | none => "general"

/-- `FallbackGenerator._generate_day_activities`. -/
def generateDayActivities (dayNum : Nat) (focus : String) (hasTranscript : Bool) :
    List Activity :=
  let base : List Activity :=
    [{ type := "watch", description := "Watch the video content carefully",
       time_estimate := "30-45 minutes" }]
  let base :=
    if dayNum == 1 then
      base ++
        [{ type := "note-taking", description := "Take notes on main topics and themes",
           time_estimate := "20 minutes" },
         { type := "reflection", description := "Reflect on your learning goals",
           time_estimate := "15 minutes" }]
    else if dayNum ≤ 3 then
      base ++
        [{ type := "analysis",
           description := "Analyze the " ++ pyLower focus ++ " presented",
           time_estimate := "30 minutes" },
         { type := "practice", description := "Practice key concepts",
           time_estimate := "45 minutes" }]
    else if dayNum ≤ 5 then
      base ++
        [{ type := "application", description := "Apply concepts to real scenarios",
           time_estimate := "60 minutes" },
         { type := "experimentation", description := "Experiment with variations",
           time_estimate := "30 minutes" }]
    else
      base ++
        [{ type := "synthesis", description := "Synthesize all learned concepts",
           time_estimate := "45 minutes" },
         { type := "project", description := "Work on final project",
           time_estimate := "90 minutes" }]
  if hasTranscript && dayNum ≤ 4 then
    base ++
      [{ type := "transcript_study",
         description := "Study the video transcript for deeper understanding",
         time_estimate := "25 minutes" }]
  else base

/-- `FallbackGenerator._generate_day_objectives` (its `title` parameter
is unused in the source body). -/
def generateDayObjectives (focus _title : String) : List String :=
  let focusLower := pyLower focus
  let base := ["Understand " ++ focusLower ++ " from the video content"]
  if pyIn "introduction" focusLower then
    base ++ ["Identify main themes and concepts", "Set personal learning goals"]
  else if pyIn "concept" focusLower then
    base ++ ["Master key principles", "Build foundational understanding"]
  else if pyIn "application" focusLower || pyIn "practice" focusLower then
    base ++ ["Apply concepts practically", "Develop hands-on skills"]
  else if pyIn "advanced" focusLower then
    base ++ ["Explore complex topics", "Push beyond basics"]
  else if pyIn "integration" focusLower || pyIn "mastery" focusLower then
    base ++ ["Synthesize all learning", "Demonstrate mastery"]
  else
    base ++ ["Build on previous learning", "Develop deeper understanding"]

/-- `FallbackGenerator._generate_day_takeaways`. -/
def generateDayTakeaways (focus : String) : List String :=
  ["Key insights about " ++ pyLower focus,
   "Practical skills and knowledge gained",
   "Areas for continued development"]

/-- `FallbackGenerator._generate_day_homework`. -/
def generateDayHomework (focus : String) (dayNum : Nat) : String :=
  if dayNum == 1 then
    "Review your notes and identify questions for deeper exploration"
  else if dayNum ≤ 3 then
    "Practice the concepts learned about " ++ pyLower focus
  else if dayNum ≤ 5 then
    "Apply " ++ pyLower focus ++ " to a personal project or interest"
  else
    "Work on your final project and prepare for completion"

/-- `FallbackGenerator._calculate_estimated_time`.  The `'hour' in
time_str` branch adds `1.5 * 60 = 90` minutes; no template activity
carries an `'hour'` estimate, so the Python float total stays an integer
on every reachable input and is modelled as `Nat`. -/
def calculateEstimatedTime (activities : List Activity) : String :=
  let totalMinutes := activities.foldl
    (fun total a =>
      let timeStr := a.time_estimate
      if pyIn "hour" timeStr then total + 90
      else
        match digitRuns timeStr with
        | n0 :: n1 :: _ => total + (n0 + n1) / 2
        | [n0] => total + n0
        | [] => total + 30)
    0
  let hours := totalMinutes / 60
  let minutes := totalMinutes % 60
  if hours > 0 then
    toString hours ++ " hour" ++ (if hours > 1 then "s" else "") ++ " "
      ++ toString minutes ++ " minutes"
  else
    toString minutes ++ " minutes"

/-- `FallbackGenerator._generate_fallback_days`. -/
def generateFallbackDays (template : Template) (title : String)
    (transcript : Option String) : List Day :=
  template.daily_focus.enum.map fun p =>
    let dayNum := p.1 + 1
    let focus := p.2
    let activities := generateDayActivities dayNum focus (optTruthy transcript)
    { day := dayNum
      title := "Day " ++ toString dayNum ++ ": " ++ focus
      objectives := generateDayObjectives focus title
      content_summary := "Focus on " ++ pyLower focus ++ " related to the video content"
      activities := activities
      key_takeaways := generateDayTakeaways focus
      homework := some (generateDayHomework focus dayNum)
      estimated_time := calculateEstimatedTime activities }

/-- Metadata fields of a `video_info` dictionary that
`create_basic_course` reads; a missing key is `none`. -/
structure PyVideoInfo where
  title : Option String := none
  author : Option String := none
  description : Option String := none
  video_id : Option String := none
  deriving Repr, DecidableEq

/-- `FallbackGenerator._generate_fallback_resources`. -/
def generateFallbackResources (youtubeUrl : String)
    (videoInfo : Option PyVideoInfo) : List String :=
  let resources := ["Original video: " ++ youtubeUrl]
  let resources :=
    match videoInfo with
    | some vi =>
      let resources :=
        if optTruthy vi.title then
          resources ++ ["Video title: " ++ pyStrOf vi.title]
        else resources
      if optTruthy vi.author then
        resources ++ ["Created by: " ++ pyStrOf vi.author]
      else resources
    | none => resources
  resources ++
    ["Online forums and communities for discussion",
     "Additional videos on similar topics",
     "Practice exercises and projects",
     "Recommended reading materials",
     "Online tools and resources"]

/-- `FallbackGenerator.create_basic_course`.  `videoInfo = none` models a
falsy `video_info` argument (`None` or `{}`); `now` is the
`datetime.utcnow().isoformat()` reading taken while building
`fallback_info`. -/
def createBasicCourse (youtubeUrl : String) (videoInfo : Option PyVideoInfo)
    (transcript : Option String) (errorReason : String) (now : String) : Course :=
  let title :=
    match videoInfo with
    | some vi => vi.title.getD "YouTube Video Course"
    | none => "YouTube Video Course"
  let author :=
    match videoInfo with
    | some vi => vi.author.getD "Unknown Creator"
    | none => "Unknown Creator"
  let description :=
    match videoInfo with
    | some vi => pySlice (vi.description.getD "Learn from this video content") 200
    | none => "Learn from this video content"
  let courseType := determineCourseType title description transcript
  let template := getTemplate courseType
  { course_title := "7-Day Learning Course: " ++ title
    course_description := "A structured 7-day course based on the YouTube video '"
      ++ title ++ "' by " ++ author ++ ". " ++ description
    youtube_url := youtubeUrl
    target_audience := template.target_audience
    estimated_total_time := "8-12 hours"
    difficulty_level := template.difficulty_level
    days := generateFallbackDays template title transcript
    final_project := pyReplace template.final_project "{title}" title
    resources := generateFallbackResources youtubeUrl videoInfo
    assessment_criteria := "Complete daily activities and final project"
    fallback_info := some
      { generated_by := "fallback_generator"
        reason := errorReason
        timestamp := now
        data_available :=
          { video_info := videoInfo.isSome
            transcript :=
              match transcript with
              | some s => decide (50 < s.length)
              | none => false } } }

/-- Erase the one wall-clock field of a course, for stating determinism
of `create_basic_course` up to its timestamp. -/
def stripTimestamp (c : Course) : Course :=
  { c with fallback_info := c.fallback_info.map fun fi => { fi with timestamp := "" } }

/-! ## AI-stage course formatter
(`AIService._validate_and_format_course`, src/services/ai_service.py,
lines 213-246) -/

/-- The `'days'` entry of an incoming course dictionary: absent, present
as a list, or present as a non-list value. -/
inductive DaysField
  | list (l : List Day)
  | nonList
  deriving Repr, DecidableEq

/-- An AI-returned course dictionary as far as
`_validate_and_format_course` inspects it. -/
structure RawCourse where
  course_title : Option String
  course_description : Option String
  days : Option DaysField
  deriving Repr, DecidableEq

/-- The course dictionary after `_validate_and_format_course`. -/
structure FormattedCourse where
  course_title : String
  course_description : String
  days : List Day
  deriving Repr, DecidableEq

/-- The generic day appended by the padding loop of
`_validate_and_format_course` (it carries no `homework` key). -/
def genericDay (dayNum : Nat) : Day :=
  { day := dayNum
    title := "Day " ++ toString dayNum ++ ": Learning Session"
    objectives := ["Continue learning from the video content"]
    content_summary := "Review and practice concepts from the video"
    activities :=
      [{ type := "review", description := "Review video content",
         time_estimate := "30 minutes" }]
    key_takeaways := ["Key learning points"]
    homework := none
    estimated_time := "1 hour" }

/-- The `while len(course['days']) < 7` padding loop. -/
def padDays (l : List Day) : List Day :=
  if l.length < 7 then padDays (l ++ [genericDay (l.length + 1)]) else l
termination_by 7 - l.length
decreasing_by simp [List.length_append]; omega

/-- The days list a `RawCourse` carries into the formatter: a missing
or non-list `'days'` entry is coerced to `[]` by
`_validate_and_format_course` before the padding loop. -/
def rawDaysList (rc : RawCourse) : List Day :=
  match rc.days with
  | some (.list l) => l
  | _ => []

/-- `AIService._validate_and_format_course`: default the required
fields, coerce a missing or non-list `'days'` entry to `[]`, then pad. -/
def validateAndFormatCourse (rc : RawCourse) : FormattedCourse :=
  { course_title := rc.course_title.getD "Generated course_title"
    course_description := rc.course_description.getD "Generated course_description"
    days := padDays (rawDaysList rc) }

/-! ## calculate_quality_score (src/app.py, lines 3253-3293) -/

/-- `calculate_quality_score(metrics, course)` from `src/app.py`.
The Python `course.get('days') and len(course.get('days', [])) == 7`
bonus test is truthiness of the days list (non-empty) conjoined with its
length being 7. -/
def calculate_quality_score (metrics : Metrics) (course : Course) : String :=
  let score : Nat :=
    (if metrics.youtube_api_success then 25
     else if metrics.backup_api_success then 20
     else if metrics.scraper_success then 15 else 0)
    +
    (if metrics.apify_success then 25
     else if metrics.youtube_transcript_success then 20
     else if metrics.backup_transcript_success then 15 else 0)
    +
    (if metrics.openrouter_success then 30
     else if metrics.claude_success then 25
     else if metrics.fallback_generator_success then 15 else 0)
    +
    (if !course.days.isEmpty && course.days.length == 7 then 20 else 0)
  if score ≥ 90 then "A+"
  else if score ≥ 80 then "A"
  else if score ≥ 70 then "B"
  else "C"

/-! ### Spec-side grade formula (claim C4)

Written from the specification's words: 25/20/15 points for the
primary/secondary/tertiary metadata tier reached, 25/20/15 for the
transcript tier, 30/25/15 for the AI tier, a 20-point bonus exactly when
the days list has length 7, thresholds ≥90→A+, ≥80→A, ≥70→B, else C. -/

def specMetadataPoints (m : Metrics) : Nat :=
  if m.youtube_api_success then 25
  else if m.backup_api_success then 20
  else if m.scraper_success then 15 else 0

def specTranscriptPoints (m : Metrics) : Nat :=
  if m.apify_success then 25
  else if m.youtube_transcript_success then 20
  else if m.backup_transcript_success then 15 else 0

def specAiPoints (m : Metrics) : Nat :=
  if m.openrouter_success then 30
  else if m.claude_success then 25
  else if m.fallback_generator_success then 15 else 0

def specBonus (c : Course) : Nat := if c.days.length = 7 then 20 else 0

def specLetter (total : Nat) : String :=
  if total ≥ 90 then "A+" else if total ≥ 80 then "A"
  else if total ≥ 70 then "B" else "C"

def specGrade (m : Metrics) (c : Course) : String :=
  specLetter (specMetadataPoints m + specTranscriptPoints m
    + specAiPoints m + specBonus c)

/-! ### Tier view of the metrics, for the monotonicity claim C5. -/

/-- Metadata tier reached: 3 = primary, 2 = secondary, 1 = tertiary,
0 = none, resolved with the priority of the `if/elif` chain in
`calculate_quality_score`. -/
def metadataTier (m : Metrics) : Nat :=
  if m.youtube_api_success then 3
  else if m.backup_api_success then 2
  else if m.scraper_success then 1 else 0

def transcriptTier (m : Metrics) : Nat :=
  if m.apify_success then 3
  else if m.youtube_transcript_success then 2
  else if m.backup_transcript_success then 1 else 0

def aiTier (m : Metrics) : Nat :=
  if m.openrouter_success then 3
  else if m.claude_success then 2
  else if m.fallback_generator_success then 1 else 0

/-- Rank of a letter grade in the order C < B < A < A+. -/
def letterRank : String → Nat
  | "A+" => 3
  | "A" => 2
  | "B" => 1
  | _ => 0

def metadataTierPoints : Nat → Nat
  | 3 => 25 | 2 => 20 | 1 => 15 | _ => 0

def transcriptTierPoints : Nat → Nat
  | 3 => 25 | 2 => 20 | 1 => 15 | _ => 0

def aiTierPoints : Nat → Nat
  | 3 => 30 | 2 => 25 | 1 => 15 | _ => 0

/-! ## Pipeline environment

`process_video` (src/app.py) is driven by the outcomes of its external
calls.  Each call site is an oracle value in `PipelineEnv`: it either
returns a truthy value, returns a falsy one (`None`/empty), or raises.
All handlers of the source are modelled explicitly, so the embedding is
a total function. -/

inductive LayerOutcome (α : Type)
  | ok (v : α)
  | empty
  | raises
  deriving Repr, DecidableEq

def LayerOutcome.isSuccess {α : Type} : LayerOutcome α → Bool
  | .ok _ => true
  | _ => false

/-- The methods defined on `TranscriptService`
(src/services/transcript_service.py).  `get_transcript_sync`, the method
`app.py` and `course_generator.py` call, is not among them: the lookup
raises `AttributeError`. -/
def transcriptServiceMethods : List String :=
  ["__init__", "is_healthy", "get_transcript_apify", "get_transcript_youtube",
   "get_transcript_backup", "_extract_transcript_from_html",
   "_parse_xml_transcript", "_clean_transcript"]

structure PipelineEnv where
  /-- `youtube_service.get_video_info_sync` (metadata layer 1). -/
  youtubeApi : LayerOutcome PyVideoInfo
  /-- `youtube_service.get_video_info_backup` (metadata layer 2). -/
  backupApi : LayerOutcome PyVideoInfo
  /-- `youtube_service.scrape_video_info` (metadata layer 3). -/
  scraper : LayerOutcome PyVideoInfo
  /-- `youtube_downloader.download_video`; its outcome is merged into
  `video_info` and is caught locally on error, never escaping. -/
  download : LayerOutcome Unit
  /-- What a `TranscriptService` method would return if it were called
  and existed; keyed by method name. -/
  transcriptMethod : String → LayerOutcome String
  /-- `ai_service.generate_course_openrouter` (AI layer 1). -/
  openrouter : LayerOutcome Course
  /-- `ai_service.generate_course_claude` under `asyncio.wait_for` (AI
  layer 2); a timeout behaves as `raises`. -/
  claude : LayerOutcome Course
  /-- `course_generator.generate_structured_fallback` (AI layer 3). -/
  fallbackGen : LayerOutcome Course
  /-- The persistence block (`database_service.save_course`,
  `save_processing_log`, `save_user_session`): `ok id` saved with id,
  `empty` returned no id, `raises` escapes to the outer guard. -/
  persist : LayerOutcome Nat
  /-- `datetime.utcnow().isoformat()` as read while building a fallback
  course. -/
  now : String

/-- Ghost trace of the pipeline stages entered on a run. -/
inductive StageTag
  | metadataStage
  | downloadStage
  | transcriptStage
  | aiStage
  | persistStage
  deriving Repr, DecidableEq

/-- `extract_video_metadata(youtube_url, metrics)` (src/app.py, lines
3018-3056): three layers, first truthy result wins; a raising layer sets
its success flag to `False`, a falsy result leaves it untouched. -/
def extract_video_metadata (env : PipelineEnv) (m : Metrics) :
    Option PyVideoInfo × Metrics :=
  match env.youtubeApi with
  | .ok v => (some v, { m with youtube_api_success := true })
  | other1 =>
    let m := if other1 = .raises then { m with youtube_api_success := false } else m
    match env.backupApi with
    | .ok v => (some v, { m with backup_api_success := true })
    | other2 =>
      let m := if other2 = .raises then { m with backup_api_success := false } else m
      match env.scraper with
      | .ok v => (some v, { m with scraper_success := true })
      | other3 =>
        let m := if other3 = .raises then { m with scraper_success := false } else m
        (none, m)

/-- A call `transcript_service.<method>(...)`: an `AttributeError` if
the method does not exist on `TranscriptService`, otherwise the oracle
outcome. -/
def callTranscriptService (env : PipelineEnv) (method : String) :
    LayerOutcome String :=
  if transcriptServiceMethods.contains method then env.transcriptMethod method
  else .raises

/-- `extract_transcript(youtube_url, video_id, metrics, session_id)`
(src/app.py, lines 3058-3088): a single attempt through
`transcript_service.get_transcript_sync`, wrapped in `try/except`; both
a falsy return and an exception set `youtube_transcript_success = False`
and yield `None`.  The returned list records the `TranscriptService`
method names invoked, in order. -/
def extract_transcript (env : PipelineEnv) (m : Metrics) :
    Option String × Metrics × List String :=
  let callTrace := ["get_transcript_sync"]
  match callTranscriptService env "get_transcript_sync" with
  | .ok t => (some t, { m with youtube_transcript_success := true }, callTrace)
  | .empty => (none, { m with youtube_transcript_success := false }, callTrace)
  | .raises => (none, { m with youtube_transcript_success := false }, callTrace)

/-- `generate_course_content(video_info, transcript, metrics)`
(src/app.py, lines 3092-3138): OpenRouter, then Claude (with timeout),
then the structured fallback generator; first truthy course wins. -/
def generate_course_content (env : PipelineEnv) (m : Metrics) :
    Option Course × Metrics :=
  match env.openrouter with
  | .ok c => (some c, { m with openrouter_success := true })
  | other1 =>
    let m := if other1 = .raises then { m with openrouter_success := false } else m
    match env.claude with
    | .ok c => (some c, { m with claude_success := true })
    | other2 =>
      let m := if other2 = .raises then { m with claude_success := false } else m
      match env.fallbackGen with
      | .ok c => (some c, { m with fallback_generator_success := true })
      | other3 =>
        let m := if other3 = .raises then { m with fallback_generator_success := false } else m
        (none, m)

/-- The result dictionary of `process_video`.  `fallback_used` and
`error_reason` are `none` when the corresponding keys are absent
(success path); `course_id` is `none` when persistence yielded no id. -/
structure PipelineResult where
  success : Bool
  course : Course
  video_info : Option PyVideoInfo
  metrics : Metrics
  quality_score : String
  fallback_used : Option Bool
  error_reason : Option String
  course_id : Option Nat
  stages : List StageTag
  deriving Repr

/-- `create_fallback_course(youtube_url, metrics, error_reason,
video_info, transcript, session_id)` (src/app.py, lines 3220-3251).
The source passes `video_info or {}` and `transcript or ''` to
`FallbackGenerator.create_basic_course` and fixes the grade to `"B"`. -/
def createFallbackCourse (url : String) (m : Metrics) (reason : String)
    (vi : Option PyVideoInfo) (tr : Option String) (now : String)
    (stages : List StageTag) : PipelineResult :=
  { success := true
    course := createBasicCourse url vi (some (tr.getD "")) reason now
    video_info := vi
    metrics := m
    quality_score := "B"
    fallback_used := some true
    error_reason := some reason
    course_id := none
    stages := stages }

/-- `process_video(video_url, session_id)` (src/app.py, lines
2831-2960): metadata extraction with an early fallback return, a
locally guarded download step, transcript extraction with description
substitution, AI course generation with a fallback return, quality
scoring, persistence, and the single outer `except` converting any
escaped exception into `create_fallback_course(...)` over the partial
`video_info`/`transcript` in scope. -/
def processVideo (env : PipelineEnv) (videoUrl : String) : PipelineResult :=
  let m := Metrics.init
  match extract_video_metadata env m with
  | (none, m) =>
    createFallbackCourse videoUrl m "metadata_extraction_failed" none none env.now
      [.metadataStage]
  | (some vi, m) =>
    -- download step: success merges fields into video_info (not tracked by
    -- any claim); failure and exception are both caught locally
    let (transcriptOpt, m, _calls) :=
      if optTruthy vi.video_id then
        extract_transcript env m
      else
        (none, m, [])
    let transcript := transcriptOpt.getD (vi.description.getD "")
    match generate_course_content env m with
    | (none, m) =>
      createFallbackCourse videoUrl m "ai_generation_failed" (some vi)
        (some transcript) env.now
        [.metadataStage, .downloadStage, .transcriptStage, .aiStage]
    | (some course, m) =>
      let quality := calculate_quality_score m course
      match env.persist with
      | .raises =>
        -- outer guard: `except Exception as e: return create_fallback_course(
        --   video_url, metrics, f"critical_error: {str(e)}", video_info,
        --   transcript, session_id)`
        createFallbackCourse videoUrl m "critical_error: persistence failure"
          (some vi) (some transcript) env.now
          [.metadataStage, .downloadStage, .transcriptStage, .aiStage, .persistStage]
      | outcome =>
        { success := true
          course := course
          video_info := some vi
          metrics := m
          quality_score := quality
          fallback_used := none
          error_reason := none
          course_id := match outcome with
            | .ok cid => some cid
            | _ => none
          stages := [.metadataStage, .downloadStage, .transcriptStage, .aiStage,
            .persistStage] }

/-- At most one of three booleans is `true`. -/
def atMostOne (a b c : Bool) : Prop :=
  (if a then 1 else 0) + (if b then 1 else 0) + (if c then 1 else 0) ≤ 1

instance (a b c : Bool) : Decidable (atMostOne a b c) := by
  unfold atMostOne; infer_instance

/-! ## URL validation (src/utils/validators.py)

`validate_youtube_url` is `any(re.match(pattern, url) for pattern in
youtube_patterns)` over five anchored patterns; `re.match` matches a
PREFIX of the string.  The regex character class `[\w-]` is modelled by
`idChar` (`\w` restricted to ASCII, as in every identifier this program
handles).  `extract_video_id` is modelled with `urlparse`/`parse_qs`
semantics specialised to the `http`/`https` URLs that pass validation;
percent-decoding is the identity on the character sets involved. -/

/-- ASCII `\w`: letters, digits, underscore. -/
def wordChar (c : Char) : Bool := c.isAlphanum || c == '_'

/-- The regex class `[\w-]`. -/
def idChar (c : Char) : Bool := wordChar c || c == '-'

/-- Strip a literal prefix, returning the remainder. -/
def stripLit : List Char → List Char → Option (List Char)
  | [], s => some s
  | _ :: _, [] => none
  | a :: as, b :: bs => if a == b then stripLit as bs else none

/-- Regex `(grp)?` followed by the rest of the pattern, with
backtracking. -/
def optGroup (grp : List Char) (cont : List Char → Bool) (s : List Char) : Bool :=
  (match stripLit grp s with
   | some r => cont r
   | none => false) || cont s

/-- Trailing `[\w-]+`: at least one id character must follow (the match
itself is a prefix match, so anything may come after). -/
def idPlus : List Char → Bool
  | c :: _ => idChar c
  | [] => false

/-- Regex `https?://` at the start of the input. -/
def matchScheme (cont : List Char → Bool) (s : List Char) : Bool :=
  match stripLit "http".data s with
  | some r =>
    optGroup "s".data
      (fun r2 =>
        match stripLit "://".data r2 with
        | some r3 => cont r3
        | none => false) r
  | none => false

/-- Literal pattern text followed by `[\w-]+`. -/
def litThenId (lit : List Char) (s : List Char) : Bool :=
  match stripLit lit s with
  | some r => idPlus r
  | none => false

/-- `^https?://(www\.)?youtube\.com/watch\?v=[\w-]+`. -/
def patWatch (s : List Char) : Bool :=
  matchScheme (optGroup "www.".data (litThenId "youtube.com/watch?v=".data)) s

/-- `^https?://youtu\.be/[\w-]+`. -/
def patShortlink (s : List Char) : Bool :=
  matchScheme (litThenId "youtu.be/".data) s

/-- `^https?://(m\.)?youtube\.com/watch\?v=[\w-]+`. -/
def patMobile (s : List Char) : Bool :=
  matchScheme (optGroup "m.".data (litThenId "youtube.com/watch?v=".data)) s

/-- `^https?://(www\.)?youtube\.com/shorts/[\w-]+`. -/
def patShorts (s : List Char) : Bool :=
  matchScheme (optGroup "www.".data (litThenId "youtube.com/shorts/".data)) s

/-- `^https?://(m\.)?youtube\.com/shorts/[\w-]+`. -/
def patShortsMobile (s : List Char) : Bool :=
  matchScheme (optGroup "m.".data (litThenId "youtube.com/shorts/".data)) s

/-- `validate_youtube_url` on a non-empty string argument. -/
def validateStr (s : String) : Bool :=
  patWatch s.data || patShortlink s.data || patMobile s.data ||
    patShorts s.data || patShortsMobile s.data

/-- A Python value at the public interface of the validators: `None`, a
string, or any non-string object. -/
inductive PyVal
  | noneV
  | strV (s : String)
  | otherV
  deriving Repr, DecidableEq

/-- `validate_youtube_url(url)`: `if not url or not isinstance(url,
str): return False`, then the pattern alternation. -/
def validate_youtube_url : PyVal → Bool
  | .strV s => if s.isEmpty then false else validateStr s
  | _ => false

/-- Characters terminating the network-location component in
`urllib.parse.urlparse`. -/
def netlocStop (c : Char) : Bool := c == '/' || c == '?' || c == '#'

/-- Characters terminating the path component. -/
def pathStop (c : Char) : Bool := c == '?' || c == '#'

/-- Prefix of `s` before the first occurrence of the literal `sep`
(all of `s` if `sep` does not occur): Python `s.split(sep)[0]`. -/
def beforeFirstSub (sep : List Char) : List Char → List Char
  | [] => []
  | c :: rest =>
    if startsWithCL sep (c :: rest) then [] else c :: beforeFirstSub sep rest

/-- Suffix of `s` after the first occurrence of the literal `sep`
(empty if `sep` does not occur). -/
def afterFirstSub (sep : List Char) : List Char → List Char
  | [] => []
  | c :: rest =>
    if startsWithCL sep (c :: rest) then (c :: rest).drop sep.length
    else afterFirstSub sep rest

/-- Suffix of `s` after the LAST occurrence of `sep`: Python
`s.split(sep)[-1]` when `sep` occurs (computed through the reversal of
the first occurrence in the reversed string). -/
def afterLastSub (sep s : List Char) : List Char :=
  (beforeFirstSub sep.reverse s.reverse).reverse

/-- Python `s.split(sep)` for a single-character separator. -/
def splitOnChar (sep : Char) : List Char → List (List Char)
  | [] => [[]]
  | c :: rest =>
    match splitOnChar sep rest with
    | [] => [[c]]
    | h :: t => if c == sep then [] :: h :: t else (c :: h) :: t

/-- `urllib.parse.parse_qs(query).get('v', [None])[0]`: fields split on
`&`; a field without `=` or with an empty value is dropped
(`keep_blank_values=False`); the first `v` value wins.  Percent-decoding
is the identity on the `[\w-]` alphabet of validated URLs. -/
def parseQsGetV (query : List Char) : Option (List Char) :=
  let pairs := splitOnChar '&' query
  let entries := pairs.filterMap fun nv =>
    if nv.isEmpty then none
    else if containsCL ['='] nv then
      let value := afterFirstSub ['='] nv
      if value.isEmpty then none
      else some (beforeFirstSub ['='] nv, value)
    else none
  (entries.find? fun e => e.1 = ['v']).map Prod.snd

/-- The components `(netloc, path, query)` of
`urllib.parse.urlparse(url)` for a URL whose scheme part is
`http://`/`https://` (every URL accepted by `validate_youtube_url` is of
this shape); `none` otherwise. -/
def urlparseComponents (s : List Char) : Option (List Char × List Char × List Char) :=
  let afterScheme :=
    match stripLit "http://".data s with
    | some r => some r
    | none => stripLit "https://".data s
  afterScheme.map fun rest =>
    let netloc := rest.takeWhile fun c => !netlocStop c
    let after := rest.drop netloc.length
    let path := after.takeWhile fun c => !pathStop c
    let query :=
      match after.drop path.length with
      | c :: afterPath => if c == '?' then afterPath.takeWhile fun x => !(x == '#') else []
      | [] => []
    (netloc, path, query)

/-- `extract_video_id(url)` on a string: reject unless
`validate_youtube_url` accepts, then parse.  `youtu.be` hosts return
`path[1:]`; `youtube.com` hosts return the id parsed from a `/shorts/`
path (empty id mapped to `None`), else the first `v` query parameter. -/
def extract_video_id_str (url : String) : Option String :=
  if !validateStr url then none
  else
    match urlparseComponents url.data with
    | none => none
    | some (netloc, path, query) =>
      if containsCL "youtu.be".data netloc then
        some ⟨path.drop 1⟩
      else if containsCL "youtube.com".data netloc then
        if containsCL "/shorts/".data path then
          let videoId :=
            beforeFirstSub ['?'] (beforeFirstSub ['/'] (afterLastSub "/shorts/".data path))
          if videoId.isEmpty then none
          else some ⟨beforeFirstSub ['?'] videoId⟩
        else
          (parseQsGetV query).map fun l => ⟨l⟩
      else none

/-- `extract_video_id` at the public interface: the leading
`validate_youtube_url` gate rejects `None`, empty and non-string
arguments. -/
def extract_video_id : PyVal → Option String
  | .strV s => if s.isEmpty then none else extract_video_id_str s
  | _ => none

/-! ### Accepted URL shapes (modelled from the spec, claim C9)

The claim's "accepted YouTube URL shapes": standard watch, `youtu.be`
short-link, mobile watch, and shorts (bare, `www.` or `m.` host), each
with or without extra query parameters, around an identifier over the
`[\w-]` class. -/

inductive HostPrefix
  | bare
  | www
  | mdot
  deriving Repr, DecidableEq

inductive UrlShape
  /-- `http(s)://[www.]youtube.com/watch?v=ID[&k=v...]` -/
  | watch (www : Bool)
  /-- `http(s)://m.youtube.com/watch?v=ID[&k=v...]` -/
  | mobileWatch
  /-- `http(s)://youtu.be/ID[?k=v...]` -/
  | shortlink
  /-- `http(s)://[www.|m.]youtube.com/shorts/ID[?k=v...]` -/
  | shorts (host : HostPrefix)
  deriving Repr, DecidableEq

/-- `&k=v` fragments appended for extra query parameters. -/
def renderParamsAmp (ps : List (List Char × List Char)) : List Char :=
  (ps.map fun kv => '&' :: (kv.1 ++ '=' :: kv.2)).flatten

/-- `?k=v&k=v` query string appended to path-identified shapes. -/
def renderParamsQn (ps : List (List Char × List Char)) : List Char :=
  match ps with
  | [] => []
  | kv :: rest => '?' :: (kv.1 ++ '=' :: kv.2) ++ renderParamsAmp rest

def schemeChars (secure : Bool) : List Char :=
  if secure then "https://".data else "http://".data

def hostPrefixChars : HostPrefix → List Char
  | .bare => []
  | .www => "www.".data
  | .mdot => "m.".data

/-- Render an accepted URL shape around identifier `id` with extra
query parameters `ps`. -/
def renderUrl (shape : UrlShape) (secure : Bool) (id : List Char)
    (ps : List (List Char × List Char)) : String :=
  match shape with
  | .watch www =>
    ⟨schemeChars secure ++ (if www then "www.".data else []) ++
      "youtube.com/watch?v=".data ++ id ++ renderParamsAmp ps⟩
  | .mobileWatch =>
    ⟨schemeChars secure ++ "m.youtube.com/watch?v=".data ++ id ++ renderParamsAmp ps⟩
  | .shortlink =>
    ⟨schemeChars secure ++ "youtu.be/".data ++ id ++ renderParamsQn ps⟩
  | .shorts host =>
    ⟨schemeChars secure ++ hostPrefixChars host ++ "youtube.com/shorts/".data ++
      id ++ renderParamsQn ps⟩

/-- Well-formed identifier: non-empty, over the `[\w-]` class. -/
def wfId (id : List Char) : Prop := id ≠ [] ∧ ∀ c ∈ id, idChar c = true

/-- Well-formed extra query parameters: non-empty keys and values over
the `[\w-]` class. -/
def wfParams (ps : List (List Char × List Char)) : Prop :=
  ∀ kv ∈ ps, kv.1 ≠ [] ∧ kv.2 ≠ [] ∧
    (∀ c ∈ kv.1, idChar c = true) ∧ ∀ c ∈ kv.2, idChar c = true

/-- A concrete environment in which every external call returns a falsy
value: every fallback layer is exhausted without exceptions. -/
def emptyEnv : PipelineEnv :=
  { youtubeApi := .empty, backupApi := .empty, scraper := .empty,
    download := .empty, transcriptMethod := fun _ => .empty,
    openrouter := .empty, claude := .empty, fallbackGen := .empty,
    persist := .empty, now := "2024-01-01T00:00:00" }

/-- A concrete video-info value: the metadata extraction succeeded. -/
def sampleVideoInfo : PyVideoInfo :=
  { title := some "React in 100 Seconds", author := some "Fireship",
    description := some "React tutorial", video_id := some "SqcY0GlETPk" }

/-- A concrete AI-generated course with an empty days list. -/
def sampleCourse : Course :=
  { course_title := "7-Day Course: React", course_description := "d",
    youtube_url := "u", target_audience := "a", estimated_total_time := "e",
    difficulty_level := "l", days := [], final_project := "f",
    resources := [], assessment_criteria := "c", fallback_info := none }

lemma specMetadataPoints_eq_tier (m : Metrics) :
    specMetadataPoints m = metadataTierPoints (metadataTier m) := by
  unfold specMetadataPoints metadataTierPoints metadataTier
  cases m.youtube_api_success <;> cases m.backup_api_success <;>
    cases m.scraper_success <;> rfl

lemma specTranscriptPoints_eq_tier (m : Metrics) :
    specTranscriptPoints m = transcriptTierPoints (transcriptTier m) := by
  unfold specTranscriptPoints transcriptTierPoints transcriptTier
  cases m.apify_success <;> cases m.youtube_transcript_success <;>
    cases m.backup_transcript_success <;> rfl

lemma specAiPoints_eq_tier (m : Metrics) :
    specAiPoints m = aiTierPoints (aiTier m) := by
  unfold specAiPoints aiTierPoints aiTier
  cases m.openrouter_success <;> cases m.claude_success <;>
    cases m.fallback_generator_success <;> rfl

lemma calculate_quality_score_eq_specGrade (m : Metrics) (c : Course) :
    calculate_quality_score m c = specGrade m c := by
  unfold calculate_quality_score specGrade specLetter specMetadataPoints
    specTranscriptPoints specAiPoints specBonus
  have hbonus :
      (if !c.days.isEmpty && c.days.length == 7 then 20 else 0) =
      (if c.days.length = 7 then 20 else 0 : Nat) := by
    rcases c.days with _ | ⟨d, ds⟩ <;> simp [List.isEmpty]
  rw [hbonus]

lemma metadataTier_le_three (m : Metrics) : metadataTier m ≤ 3 := by
  unfold metadataTier; split_ifs <;> omega

lemma transcriptTier_le_three (m : Metrics) : transcriptTier m ≤ 3 := by
  unfold transcriptTier; split_ifs <;> omega

lemma aiTier_le_three (m : Metrics) : aiTier m ≤ 3 := by
  unfold aiTier; split_ifs <;> omega

lemma metadataTierPoints_mono {a b : Nat} (hb : b ≤ 3) (h : a ≤ b) :
    metadataTierPoints a ≤ metadataTierPoints b := by
  interval_cases b <;> interval_cases a <;> simp [metadataTierPoints]

lemma transcriptTierPoints_mono {a b : Nat} (hb : b ≤ 3) (h : a ≤ b) :
    transcriptTierPoints a ≤ transcriptTierPoints b := by
  interval_cases b <;> interval_cases a <;> simp [transcriptTierPoints]

lemma aiTierPoints_mono {a b : Nat} (hb : b ≤ 3) (h : a ≤ b) :
    aiTierPoints a ≤ aiTierPoints b := by
  interval_cases b <;> interval_cases a <;> simp [aiTierPoints]

lemma letterRank_specLetter_mono {a b : Nat} (h : a ≤ b) :
    letterRank (specLetter a) ≤ letterRank (specLetter b) := by
  unfold specLetter
  split_ifs <;> simp [letterRank] <;> omega

end YTCourse

/-- C4: for every metrics state and course, the user-facing letter grade
of `calculate_quality_score` equals the letter obtained by summing
25/20/15 points for the metadata tier reached, 25/20/15 for the
transcript tier, 30/25/15 for the AI tier, plus a 20-point bonus exactly
when the course's days list has length 7, mapped through the thresholds
≥90→"A+", ≥80→"A", ≥70→"B", else "C". -/
theorem C4_quality_grade_formula (m : YTCourse.Metrics) (c : YTCourse.Course) :
    YTCourse.calculate_quality_score m c =
      YTCourse.specLetter (YTCourse.specMetadataPoints m
        + YTCourse.specTranscriptPoints m + YTCourse.specAiPoints m
        + YTCourse.specBonus c) :=
  YTCourse.calculate_quality_score_eq_specGrade m c

/-- C5: the letter grade of `calculate_quality_score` is monotone in the
stage tiers: if each stage of `m'` reached a tier at least as high as in
`m` (with the course fixed), the grade never decreases in the order
C < B < A < A+. -/
theorem C5_grade_monotone_in_tiers
    (m m' : YTCourse.Metrics) (c : YTCourse.Course)
    (hmeta : YTCourse.metadataTier m ≤ YTCourse.metadataTier m')
    (htrans : YTCourse.transcriptTier m ≤ YTCourse.transcriptTier m')
    (hai : YTCourse.aiTier m ≤ YTCourse.aiTier m') :
    YTCourse.letterRank (YTCourse.calculate_quality_score m c) ≤
      YTCourse.letterRank (YTCourse.calculate_quality_score m' c) := by
  rw [YTCourse.calculate_quality_score_eq_specGrade,
    YTCourse.calculate_quality_score_eq_specGrade]
  unfold YTCourse.specGrade
  apply YTCourse.letterRank_specLetter_mono
  have h1 := YTCourse.specMetadataPoints_eq_tier m
  have h2 := YTCourse.specMetadataPoints_eq_tier m'
  have h3 := YTCourse.specTranscriptPoints_eq_tier m
  have h4 := YTCourse.specTranscriptPoints_eq_tier m'
  have h5 := YTCourse.specAiPoints_eq_tier m
  have h6 := YTCourse.specAiPoints_eq_tier m'
  have p1 := YTCourse.metadataTierPoints_mono (YTCourse.metadataTier_le_three m') hmeta
  have p2 := YTCourse.transcriptTierPoints_mono (YTCourse.transcriptTier_le_three m') htrans
  have p3 := YTCourse.aiTierPoints_mono (YTCourse.aiTier_le_three m') hai
  omega

/-- Witness for C5 at a concrete pair of metrics states: secondary
metadata success improved to primary, other stages fixed. -/
theorem C5_grade_monotone_in_tiers_witness :
    YTCourse.metadataTier { backup_api_success := true } ≤
        YTCourse.metadataTier { youtube_api_success := true } ∧
      YTCourse.letterRank (YTCourse.calculate_quality_score
          { backup_api_success := true }
          { course_title := "t", course_description := "d", youtube_url := "u",
            target_audience := "a", estimated_total_time := "e",
            difficulty_level := "l", days := [], final_project := "f",
            resources := [], assessment_criteria := "c",
            fallback_info := none }) ≤
        YTCourse.letterRank (YTCourse.calculate_quality_score
          { youtube_api_success := true }
          { course_title := "t", course_description := "d", youtube_url := "u",
            target_audience := "a", estimated_total_time := "e",
            difficulty_level := "l", days := [], final_project := "f",
            resources := [], assessment_criteria := "c",
            fallback_info := none }) :=
  ⟨by decide,
   C5_grade_monotone_in_tiers { backup_api_success := true }
     { youtube_api_success := true }
     { course_title := "t", course_description := "d", youtube_url := "u",
       target_audience := "a", estimated_total_time := "e",
       difficulty_level := "l", days := [], final_project := "f",
       resources := [], assessment_criteria := "c", fallback_info := none }
     (by decide) (by decide) (by decide)⟩


namespace YTCourse

/-! ## Lemmas about the day-padding loop (claim C1) -/

lemma padDays_eq_aux : ∀ (n : Nat) (l : List Day), 7 - l.length = n →
    padDays l = l ++ (List.range n).map fun i => genericDay (l.length + 1 + i) := by
  intro n
  induction n with
  | zero =>
    intro l h
    have h7 : ¬ l.length < 7 := by omega
    rw [padDays, if_neg h7]
    simp
  | succ n ih =>
    intro l h
    have hlt : l.length < 7 := by omega
    have hlen : (l ++ [genericDay (l.length + 1)]).length = l.length + 1 := by simp
    rw [padDays, if_pos hlt, ih (l ++ [genericDay (l.length + 1)]) (by simp; omega)]
    rw [List.range_succ_eq_map, hlen]
    simp [List.append_assoc, List.map_map]
    intro a _
    congr 1
    omega

lemma padDays_spec (l : List Day) :
    padDays l = l ++ (List.range (7 - l.length)).map fun i => genericDay (l.length + 1 + i) :=
  padDays_eq_aux _ l rfl

lemma validateAndFormatCourse_days (rc : RawCourse) :
    (validateAndFormatCourse rc).days =
      rawDaysList rc ++ (List.range (7 - (rawDaysList rc).length)).map
        fun i => genericDay ((rawDaysList rc).length + 1 + i) := by
  simp [validateAndFormatCourse, padDays_spec]

lemma padDays_length (l : List Day) : (padDays l).length = max l.length 7 := by
  rw [padDays_spec]
  simp
  omega

end YTCourse

/-- C1 counterexample: an AI course that arrives with 8 day entries
leaves `_validate_and_format_course` with 8 day entries — the formatter
pads but never truncates, so the claimed "exactly 7 days for every
input" is false. -/
theorem C1_counterexample :
    (YTCourse.validateAndFormatCourse
        { course_title := some "t", course_description := some "d",
          days := some (.list ((List.range 8).map fun i =>
            YTCourse.genericDay (i + 1))) }).days.length = 8 ∧
    (YTCourse.validateAndFormatCourse
        { course_title := some "t", course_description := some "d",
          days := some (.list ((List.range 8).map fun i =>
            YTCourse.genericDay (i + 1))) }).days.length ≠ 7 := by
  have h := YTCourse.validateAndFormatCourse_days
    ⟨some "t", some "d", some (.list ((List.range 8).map fun i =>
      YTCourse.genericDay (i + 1)))⟩
  constructor <;> simp [h, YTCourse.rawDaysList]

/-- C1 (amended): the AI-stage formatter pads any shorter day list up to
7, appending generic entries numbered `n+1 .. 7` after the existing `n`
entries, and never truncates — the output length is `max n 7`; the
rule-based fallback generator always emits exactly 7 days numbered
1..7.  So no course from these layers has fewer than 7 days, but an AI
day list longer than 7 passes through unchanged. -/
theorem C1_padding_and_fallback_days :
    (∀ rc : YTCourse.RawCourse,
      (YTCourse.validateAndFormatCourse rc).days =
        YTCourse.rawDaysList rc ++
          (List.range (7 - (YTCourse.rawDaysList rc).length)).map
            (fun i => YTCourse.genericDay ((YTCourse.rawDaysList rc).length + 1 + i)) ∧
      (YTCourse.validateAndFormatCourse rc).days.length =
        max (YTCourse.rawDaysList rc).length 7) ∧
    (∀ tmpl ∈ YTCourse.allTemplates, ∀ (title : String) (tr : Option String),
      (YTCourse.generateFallbackDays tmpl title tr).map YTCourse.Day.day =
        [1, 2, 3, 4, 5, 6, 7]) := by
  constructor
  · intro rc
    refine ⟨YTCourse.validateAndFormatCourse_days rc, ?_⟩
    simp [YTCourse.validateAndFormatCourse, YTCourse.padDays_length]
  · intro tmpl h title tr
    fin_cases h <;> rfl

/-- Witness for C1: the padding equation at an empty incoming day list,
and the fallback day numbering at the educational template. -/
theorem C1_padding_and_fallback_days_witness :
    (YTCourse.validateAndFormatCourse
        { course_title := none, course_description := none, days := none }).days =
      YTCourse.rawDaysList
          { course_title := none, course_description := none, days := none } ++
        (List.range (7 - (YTCourse.rawDaysList
            { course_title := none, course_description := none, days := none }).length)).map
          (fun i => YTCourse.genericDay ((YTCourse.rawDaysList
            { course_title := none, course_description := none, days := none }).length + 1 + i)) ∧
    (YTCourse.generateFallbackDays YTCourse.educationalTemplate "Video" none).map
        YTCourse.Day.day = [1, 2, 3, 4, 5, 6, 7] :=
  ⟨(C1_padding_and_fallback_days.1
      { course_title := none, course_description := none, days := none }).1,
   C1_padding_and_fallback_days.2 YTCourse.educationalTemplate
     (by simp [YTCourse.allTemplates]) "Video" none⟩

/-- C7: `extract_transcript` makes exactly one attempt, through
`transcript_service.get_transcript_sync` — a method that does not exist
on `TranscriptService`, so the attempt raises `AttributeError` and the
stage reports failure for every input.  The secondary
(`get_transcript_youtube`) and tertiary (`get_transcript_backup`)
methods exist on the service but are never invoked. -/
theorem C7_transcript_single_attempt (env : YTCourse.PipelineEnv)
    (m : YTCourse.Metrics) :
    YTCourse.extract_transcript env m =
      (none, { m with youtube_transcript_success := false },
        ["get_transcript_sync"]) ∧
    "get_transcript_sync" ∉ YTCourse.transcriptServiceMethods ∧
    "get_transcript_youtube" ∈ YTCourse.transcriptServiceMethods ∧
    "get_transcript_backup" ∈ YTCourse.transcriptServiceMethods ∧
    "get_transcript_youtube" ∉ ["get_transcript_sync"] ∧
    "get_transcript_backup" ∉ ["get_transcript_sync"] := by
  have hm : "get_transcript_sync" ∉ YTCourse.transcriptServiceMethods := by decide
  refine ⟨?_, by decide, by decide, by decide, by decide, by decide⟩
  simp [YTCourse.extract_transcript, YTCourse.callTranscriptService, hm]

/-- C8 counterexample: two runs of
`FallbackGenerator.create_basic_course` on identical inputs but one
second apart produce different `Course` values — the
`fallback_info.timestamp` field records the wall clock, so the output is
not byte-identical across runs. -/
theorem C8_counterexample :
    YTCourse.createBasicCourse "https://youtu.be/abc" none none
        "ai_generation_failed" "2024-01-01T00:00:00" ≠
      YTCourse.createBasicCourse "https://youtu.be/abc" none none
        "ai_generation_failed" "2024-01-01T00:00:01" := by
  decide

/-- C8 (amended): `create_basic_course` is deterministic in everything
except the `fallback_info.timestamp` wall-clock field: for every fixed
input (URL, video_info, transcript, error reason), the outputs of any
two runs agree after erasing that one field. -/
theorem C8_deterministic_up_to_timestamp (url : String)
    (vi : Option YTCourse.PyVideoInfo) (tr : Option String) (er : String)
    (now1 now2 : String) :
    YTCourse.stripTimestamp (YTCourse.createBasicCourse url vi tr er now1) =
      YTCourse.stripTimestamp (YTCourse.createBasicCourse url vi tr er now2) := rfl

namespace YTCourse

/-! ## Lemmas about the pipeline stage chains (claims C2, C3, C6, C7) -/

/-- `extract_transcript` always fails: the one method it calls,
`get_transcript_sync`, is not defined on `TranscriptService`. -/
lemma extract_transcript_eq (env : PipelineEnv) (m : Metrics) :
    extract_transcript env m =
      (none, { m with youtube_transcript_success := false },
        ["get_transcript_sync"]) := by
  have hm : "get_transcript_sync" ∉ transcriptServiceMethods := by decide
  simp [extract_transcript, callTranscriptService, hm]

/-- After the metadata chain runs on fresh metrics, at most one of its
three success flags is `true` and every other flag is still `false`. -/
lemma extract_video_metadata_after (env : PipelineEnv) :
    atMostOne (extract_video_metadata env Metrics.init).2.youtube_api_success
        (extract_video_metadata env Metrics.init).2.backup_api_success
        (extract_video_metadata env Metrics.init).2.scraper_success ∧
      (extract_video_metadata env Metrics.init).2.apify_success = false ∧
      (extract_video_metadata env Metrics.init).2.youtube_transcript_success = false ∧
      (extract_video_metadata env Metrics.init).2.backup_transcript_success = false ∧
      (extract_video_metadata env Metrics.init).2.openrouter_success = false ∧
      (extract_video_metadata env Metrics.init).2.claude_success = false ∧
      (extract_video_metadata env Metrics.init).2.fallback_generator_success = false := by
  rcases ha : env.youtubeApi <;> rcases hb : env.backupApi <;>
    rcases hc : env.scraper <;>
    simp [extract_video_metadata, ha, hb, hc, atMostOne, Metrics.init]

/-- After the AI chain runs on metrics whose AI flags are all `false`,
at most one AI flag is `true` and all other flags are untouched. -/
lemma generate_course_content_after (env : PipelineEnv) (m : Metrics)
    (h1 : m.openrouter_success = false) (h2 : m.claude_success = false)
    (h3 : m.fallback_generator_success = false) :
    atMostOne (generate_course_content env m).2.openrouter_success
        (generate_course_content env m).2.claude_success
        (generate_course_content env m).2.fallback_generator_success ∧
      (generate_course_content env m).2.youtube_api_success = m.youtube_api_success ∧
      (generate_course_content env m).2.backup_api_success = m.backup_api_success ∧
      (generate_course_content env m).2.scraper_success = m.scraper_success ∧
      (generate_course_content env m).2.apify_success = m.apify_success ∧
      (generate_course_content env m).2.youtube_transcript_success
        = m.youtube_transcript_success ∧
      (generate_course_content env m).2.backup_transcript_success
        = m.backup_transcript_success := by
  rcases ha : env.openrouter <;> rcases hb : env.claude <;>
    rcases hc : env.fallbackGen <;>
    simp [generate_course_content, ha, hb, hc, atMostOne, h1, h2, h3]

/-- If no metadata layer returns a truthy value, the chain yields
`None`. -/
lemma extract_video_metadata_fst_none (env : PipelineEnv) (m : Metrics)
    (h1 : env.youtubeApi.isSuccess = false)
    (h2 : env.backupApi.isSuccess = false)
    (h3 : env.scraper.isSuccess = false) :
    (extract_video_metadata env m).1 = none := by
  rcases ha : env.youtubeApi <;> rcases hb : env.backupApi <;>
    rcases hc : env.scraper <;>
    simp_all [extract_video_metadata, LayerOutcome.isSuccess]

end YTCourse


/-- C2: `process_video` never propagates an exception: on every
environment (hence on every combination of stage successes, falsy
returns and raised exceptions — `processVideo` is a total function of
them) it returns a result whose `success` flag is `True`; and whenever
the persistence block raises — the one modelled call whose exception
reaches the single outer guard — the result is a fallback-course
response with `fallback_used = True`, built from the partial
`video_info`/`transcript` in scope. -/
theorem C2_always_success_and_fallback_on_escape
    (env : YTCourse.PipelineEnv) (url : String) :
    (YTCourse.processVideo env url).success = true ∧
    (env.persist = .raises →
      (YTCourse.processVideo env url).fallback_used = some true) := by
  rcases hm : YTCourse.extract_video_metadata env YTCourse.Metrics.init
    with ⟨viOpt, m1⟩
  cases viOpt with
  | none =>
    simp [YTCourse.processVideo, hm, YTCourse.createFallbackCourse]
  | some vi =>
    cases ht : YTCourse.optTruthy vi.video_id with
    | false =>
      rcases hai : YTCourse.generate_course_content env m1 with ⟨courseOpt, m3⟩
      cases courseOpt with
      | none =>
        simp [YTCourse.processVideo, hm, ht, hai, YTCourse.createFallbackCourse]
      | some course =>
        rcases hp : env.persist <;>
          simp [YTCourse.processVideo, hm, ht, hai, hp,
            YTCourse.createFallbackCourse]
    | true =>
      rcases hai : YTCourse.generate_course_content env
          { m1 with youtube_transcript_success := false } with ⟨courseOpt, m3⟩
      cases courseOpt with
      | none =>
        simp [YTCourse.processVideo, hm, ht, YTCourse.extract_transcript_eq,
          hai, YTCourse.createFallbackCourse]
      | some course =>
        rcases hp : env.persist <;>
          simp [YTCourse.processVideo, hm, ht, YTCourse.extract_transcript_eq,
            hai, hp, YTCourse.createFallbackCourse]

/-- Witness for C2: a concrete environment whose persistence raises. -/
theorem C2_always_success_and_fallback_on_escape_witness :
    (YTCourse.processVideo { YTCourse.emptyEnv with persist := .raises }
        "https://youtu.be/x").success = true ∧
    (YTCourse.processVideo { YTCourse.emptyEnv with persist := .raises }
        "https://youtu.be/x").fallback_used = some true :=
  ⟨(C2_always_success_and_fallback_on_escape
      { YTCourse.emptyEnv with persist := .raises } "https://youtu.be/x").1,
   (C2_always_success_and_fallback_on_escape
      { YTCourse.emptyEnv with persist := .raises } "https://youtu.be/x").2 rfl⟩

/-- C3: if every metadata layer fails, `process_video` returns the
fallback-course result: `fallback_used = True`, a non-empty
`error_reason` (`"metadata_extraction_failed"`), the fixed fallback
grade `"B"`, and neither the transcript stage nor the AI stage is ever
entered. -/
theorem C3_metadata_exhaustion_fallback (env : YTCourse.PipelineEnv) (url : String)
    (h1 : env.youtubeApi.isSuccess = false)
    (h2 : env.backupApi.isSuccess = false)
    (h3 : env.scraper.isSuccess = false) :
    (YTCourse.processVideo env url).fallback_used = some true ∧
    (YTCourse.processVideo env url).error_reason =
      some "metadata_extraction_failed" ∧
    "metadata_extraction_failed" ≠ "" ∧
    (YTCourse.processVideo env url).quality_score = "B" ∧
    (YTCourse.processVideo env url).stages = [.metadataStage] ∧
    YTCourse.StageTag.transcriptStage ∉ (YTCourse.processVideo env url).stages ∧
    YTCourse.StageTag.aiStage ∉ (YTCourse.processVideo env url).stages := by
  rcases hm : YTCourse.extract_video_metadata env YTCourse.Metrics.init
    with ⟨viOpt, m1⟩
  have hnone : viOpt = none := by
    have h := YTCourse.extract_video_metadata_fst_none env YTCourse.Metrics.init h1 h2 h3
    rw [hm] at h
    exact h
  subst hnone
  simp [YTCourse.processVideo, hm, YTCourse.createFallbackCourse]

/-- Witness for C3: the all-layers-falsy environment. -/
theorem C3_metadata_exhaustion_fallback_witness :
    (YTCourse.processVideo YTCourse.emptyEnv
        "https://www.youtube.com/watch?v=dQw4w9WgXcQ").fallback_used = some true ∧
    (YTCourse.processVideo YTCourse.emptyEnv
        "https://www.youtube.com/watch?v=dQw4w9WgXcQ").quality_score = "B" :=
  ⟨(C3_metadata_exhaustion_fallback YTCourse.emptyEnv
      "https://www.youtube.com/watch?v=dQw4w9WgXcQ" rfl rfl rfl).1,
   (C3_metadata_exhaustion_fallback YTCourse.emptyEnv
      "https://www.youtube.com/watch?v=dQw4w9WgXcQ" rfl rfl rfl).2.2.2.1⟩

/-- C6: on every pipeline run, within each stage's fallback chain at
most one of its three `ProcessingMetrics` success booleans ends up
`True` — each chain returns at the first success, so later layers are
never attempted. -/
theorem C6_at_most_one_success_per_stage
    (env : YTCourse.PipelineEnv) (url : String) :
    YTCourse.atMostOne (YTCourse.processVideo env url).metrics.youtube_api_success
      (YTCourse.processVideo env url).metrics.backup_api_success
      (YTCourse.processVideo env url).metrics.scraper_success ∧
    YTCourse.atMostOne (YTCourse.processVideo env url).metrics.apify_success
      (YTCourse.processVideo env url).metrics.youtube_transcript_success
      (YTCourse.processVideo env url).metrics.backup_transcript_success ∧
    YTCourse.atMostOne (YTCourse.processVideo env url).metrics.openrouter_success
      (YTCourse.processVideo env url).metrics.claude_success
      (YTCourse.processVideo env url).metrics.fallback_generator_success := by
  have hmetaFacts := YTCourse.extract_video_metadata_after env
  rcases hm : YTCourse.extract_video_metadata env YTCourse.Metrics.init
    with ⟨viOpt, m1⟩
  rw [hm] at hmetaFacts
  replace hmetaFacts :
      YTCourse.atMostOne m1.youtube_api_success m1.backup_api_success
          m1.scraper_success ∧
        m1.apify_success = false ∧ m1.youtube_transcript_success = false ∧
        m1.backup_transcript_success = false ∧ m1.openrouter_success = false ∧
        m1.claude_success = false ∧ m1.fallback_generator_success = false :=
    hmetaFacts
  obtain ⟨hAtMost, hap, hyt, hbt, hor, hcl, hfg⟩ := hmetaFacts
  cases viOpt with
  | none =>
    refine ⟨?_, ?_, ?_⟩
    · simpa [YTCourse.processVideo, hm, YTCourse.createFallbackCourse]
        using hAtMost
    · simp [YTCourse.processVideo, hm, YTCourse.createFallbackCourse,
        YTCourse.atMostOne, hap, hyt, hbt]
    · simp [YTCourse.processVideo, hm, YTCourse.createFallbackCourse,
        YTCourse.atMostOne, hor, hcl, hfg]
  | some vi =>
    cases ht : YTCourse.optTruthy vi.video_id with
    | false =>
      rcases hai : YTCourse.generate_course_content env m1 with ⟨courseOpt, m3⟩
      have hAiFacts := YTCourse.generate_course_content_after env m1 hor hcl hfg
      rw [hai] at hAiFacts
      replace hAiFacts :
          YTCourse.atMostOne m3.openrouter_success m3.claude_success
              m3.fallback_generator_success ∧
            m3.youtube_api_success = m1.youtube_api_success ∧
            m3.backup_api_success = m1.backup_api_success ∧
            m3.scraper_success = m1.scraper_success ∧
            m3.apify_success = m1.apify_success ∧
            m3.youtube_transcript_success = m1.youtube_transcript_success ∧
            m3.backup_transcript_success = m1.backup_transcript_success :=
        hAiFacts
      obtain ⟨hAi, f1, f2, f3, f4, f5, f6⟩ := hAiFacts
      have hgoal :
          YTCourse.atMostOne m3.youtube_api_success m3.backup_api_success
              m3.scraper_success ∧
            YTCourse.atMostOne m3.apify_success m3.youtube_transcript_success
              m3.backup_transcript_success ∧
            YTCourse.atMostOne m3.openrouter_success m3.claude_success
              m3.fallback_generator_success := by
        refine ⟨by rw [f1, f2, f3]; exact hAtMost, ?_, hAi⟩
        rw [f4, f5, f6]
        simp [YTCourse.atMostOne, hap, hyt, hbt]
      cases courseOpt with
      | none =>
        refine ⟨?_, ?_, ?_⟩ <;>
          simp [YTCourse.processVideo, hm, ht, hai,
            YTCourse.createFallbackCourse, hgoal.1, hgoal.2.1, hgoal.2.2]
      | some course =>
        rcases hp : env.persist <;>
          (refine ⟨?_, ?_, ?_⟩ <;>
            simp [YTCourse.processVideo, hm, ht, hai, hp,
              YTCourse.createFallbackCourse, hgoal.1, hgoal.2.1, hgoal.2.2])
    | true =>
      rcases hai : YTCourse.generate_course_content env
          { m1 with youtube_transcript_success := false } with ⟨courseOpt, m3⟩
      have hAiFacts := YTCourse.generate_course_content_after env
        { m1 with youtube_transcript_success := false } hor hcl hfg
      rw [hai] at hAiFacts
      replace hAiFacts :
          YTCourse.atMostOne m3.openrouter_success m3.claude_success
              m3.fallback_generator_success ∧
            m3.youtube_api_success = m1.youtube_api_success ∧
            m3.backup_api_success = m1.backup_api_success ∧
            m3.scraper_success = m1.scraper_success ∧
            m3.apify_success = m1.apify_success ∧
            m3.youtube_transcript_success = false ∧
            m3.backup_transcript_success = m1.backup_transcript_success :=
        hAiFacts
      obtain ⟨hAi, f1, f2, f3, f4, f5, f6⟩ := hAiFacts
      have hgoal :
          YTCourse.atMostOne m3.youtube_api_success m3.backup_api_success
              m3.scraper_success ∧
            YTCourse.atMostOne m3.apify_success m3.youtube_transcript_success
              m3.backup_transcript_success ∧
            YTCourse.atMostOne m3.openrouter_success m3.claude_success
              m3.fallback_generator_success := by
        refine ⟨by rw [f1, f2, f3]; exact hAtMost, ?_, hAi⟩
        rw [f4, f5, f6]
        simp [YTCourse.atMostOne, hap, hbt]
      cases courseOpt with
      | none =>
        refine ⟨?_, ?_, ?_⟩ <;>
          simp [YTCourse.processVideo, hm, ht, YTCourse.extract_transcript_eq,
            hai, YTCourse.createFallbackCourse, hgoal.1, hgoal.2.1, hgoal.2.2]
      | some course =>
        rcases hp : env.persist <;>
          (refine ⟨?_, ?_, ?_⟩ <;>
            simp [YTCourse.processVideo, hm, ht, YTCourse.extract_transcript_eq,
              hai, hp, YTCourse.createFallbackCourse, hgoal.1, hgoal.2.1,
              hgoal.2.2])

namespace YTCourse

/-! ## Lemmas about the URL validator and extractor (claims C9, C10) -/

lemma stripLit_append (lit rest : List Char) :
    stripLit lit (lit ++ rest) = some rest := by
  induction lit with
  | nil => rfl
  | cons a as ih => simp [stripLit, ih]

lemma stripLit_append_left (pat s₁ rest : List Char) (h : pat.length ≤ s₁.length) :
    stripLit pat (s₁ ++ rest) = (stripLit pat s₁).map (· ++ rest) := by
  induction pat generalizing s₁ with
  | nil => simp [stripLit]
  | cons a as ih =>
    cases s₁ with
    | nil => simp at h
    | cons b bs =>
      simp only [List.cons_append, stripLit]
      by_cases hab : a == b
      · simp only [hab, if_true]
        exact ih bs (by simpa using h)
      · simp [hab]

lemma startsWithCL_append (l rest : List Char) :
    startsWithCL l (l ++ rest) = true := by
  induction l with
  | nil => rfl
  | cons a as ih => simp [startsWithCL, ih]

lemma startsWithCL_self (l : List Char) : startsWithCL l l = true := by
  have h := startsWithCL_append l []
  simpa using h

lemma takeWhile_append_all (p : Char → Bool) (l₁ l₂ : List Char)
    (h : ∀ c ∈ l₁, p c = true) :
    (l₁ ++ l₂).takeWhile p = l₁ ++ l₂.takeWhile p := by
  induction l₁ with
  | nil => simp
  | cons a as ih =>
    have ha : p a = true := h a (by simp)
    simp only [List.cons_append, List.takeWhile_cons, ha, if_true]
    rw [ih fun c hc => h c (by simp [hc])]

lemma takeWhile_all (p : Char → Bool) (l : List Char)
    (h : ∀ c ∈ l, p c = true) : l.takeWhile p = l := by
  have := takeWhile_append_all p l [] h
  simpa using this

lemma takeWhile_cons_false (p : Char → Bool) (c : Char) (l : List Char)
    (h : p c = false) : (c :: l).takeWhile p = [] := by
  simp [List.takeWhile_cons, h]

lemma beforeFirstSub_append (hc : Char) (sep' s₁ s₂ : List Char)
    (h1 : ∀ c ∈ s₁, c ≠ hc) (h2 : startsWithCL (hc :: sep') s₂ = true) :
    beforeFirstSub (hc :: sep') (s₁ ++ s₂) = s₁ := by
  induction s₁ with
  | nil =>
    cases s₂ with
    | nil => simp [startsWithCL] at h2
    | cons c cs => simp [beforeFirstSub, h2]
  | cons a as ih =>
    have ha : a ≠ hc := h1 a (by simp)
    have hsw : startsWithCL (hc :: sep') (a :: (as ++ s₂)) = false := by
      simp [startsWithCL]
      intro he
      exact absurd he.symm ha
    simp only [List.cons_append, beforeFirstSub, List.append_eq]
    rw [hsw]
    simp
    exact ih fun c hcm => h1 c (by simp [hcm])

lemma beforeFirstSub_all (hc : Char) (sep' s : List Char)
    (h : ∀ c ∈ s, c ≠ hc) : beforeFirstSub (hc :: sep') s = s := by
  induction s with
  | nil => rfl
  | cons a as ih =>
    have ha : a ≠ hc := h a (by simp)
    have hsw : startsWithCL (hc :: sep') (a :: as) = false := by
      simp [startsWithCL]
      intro he
      exact absurd he.symm ha
    simp only [beforeFirstSub]
    rw [hsw]
    simp
    exact ih fun c hcm => h c (by simp [hcm])

lemma splitOnChar_ne_nil (sep : Char) (l : List Char) : splitOnChar sep l ≠ [] := by
  cases l with
  | nil =>
    intro hcon
    simp [splitOnChar] at hcon
  | cons c rest =>
    simp only [splitOnChar]
    rcases h : splitOnChar sep rest with _ | ⟨hd, tl⟩
    · simp
    · by_cases hcs : c == sep <;> simp [hcs]

lemma splitOnChar_append_sep (sep : Char) (l₁ l₂ : List Char)
    (h : ∀ c ∈ l₁, c ≠ sep) :
    splitOnChar sep (l₁ ++ sep :: l₂) = l₁ :: splitOnChar sep l₂ := by
  induction l₁ with
  | nil =>
    simp only [List.nil_append, splitOnChar]
    rcases hsp : splitOnChar sep l₂ with _ | ⟨hd, tl⟩
    · exact absurd hsp (splitOnChar_ne_nil sep l₂)
    · simp
  | cons a as ih =>
    have ha : (a == sep) = false := by
      simp
      exact h a (by simp)
    have ihe := ih fun c hc => h c (by simp [hc])
    simp only [List.cons_append, splitOnChar, List.append_eq]
    rw [ihe]
    simp [ha]

lemma splitOnChar_no_sep (sep : Char) (l : List Char)
    (h : ∀ c ∈ l, c ≠ sep) : splitOnChar sep l = [l] := by
  induction l with
  | nil => rfl
  | cons a as ih =>
    have ha : (a == sep) = false := by
      simp
      exact h a (by simp)
    have ihe := ih fun c hc => h c (by simp [hc])
    simp only [splitOnChar, List.append_eq]
    rw [ihe]
    simp [ha]

/-- The characters of the `[\w-]` class are not URL metacharacters. -/
lemma idChar_facts (c : Char) (h : idChar c = true) :
    netlocStop c = false ∧ pathStop c = false ∧ (c == '#') = false ∧
      c ≠ '&' ∧ c ≠ '=' ∧ c ≠ '/' ∧ c ≠ '?' ∧ c ≠ ' ' := by
  have hslash : c ≠ '/' := by rintro rfl; exact absurd h (by decide)
  have hq : c ≠ '?' := by rintro rfl; exact absurd h (by decide)
  have hhash : c ≠ '#' := by rintro rfl; exact absurd h (by decide)
  have hamp : c ≠ '&' := by rintro rfl; exact absurd h (by decide)
  have heq : c ≠ '=' := by rintro rfl; exact absurd h (by decide)
  have hsp : c ≠ ' ' := by rintro rfl; exact absurd h (by decide)
  refine ⟨?_, ?_, ?_, hamp, heq, hslash, hq, hsp⟩
  · simp [netlocStop, hslash, hq, hhash]
  · simp [pathStop, hq, hhash]
  · simp [hhash]

/-- Characters of rendered `&k=v` parameter fragments. -/
lemma renderParamsAmp_chars (ps : List (List Char × List Char))
    (hps : wfParams ps) :
    ∀ c ∈ renderParamsAmp ps, c = '&' ∨ c = '=' ∨ idChar c = true := by
  induction ps with
  | nil => simp [renderParamsAmp]
  | cons kv rest ih =>
    intro c hc
    have hkv := hps kv (by simp)
    have hrest : wfParams rest := fun p hp => hps p (by simp [hp])
    simp only [renderParamsAmp, List.map_cons, List.flatten_cons, List.cons_append,
      List.mem_cons, List.mem_append] at hc
    rcases hc with rfl | hc
    · left; rfl
    rcases hc with hc | hrest'
    · rcases hc with hk | hc
      · right; right; exact hkv.2.2.1 c hk
      · rcases hc with rfl | hv
        · right; left; rfl
        · right; right; exact hkv.2.2.2 c hv
    · exact ih hrest c (by simpa [renderParamsAmp] using hrest')

end YTCourse

namespace YTCourse

/-- `https?://` consumes exactly the rendered scheme prefix. -/
lemma matchScheme_eval (secure : Bool) (cont : List Char → Bool) (X : List Char) :
    matchScheme cont (schemeChars secure ++ X) = cont X := by
  cases secure with
  | false =>
    simp [schemeChars, matchScheme, optGroup, stripLit,
      (by decide : (('s' : Char) == ':') = false)]
  | true =>
    simp [schemeChars, matchScheme, optGroup, stripLit,
      (by decide : ((':' : Char) == 's') = false)]

/-- The scheme-splitting step of `urlparseComponents` on a rendered
URL. -/
lemma afterScheme_eval (secure : Bool) (rest : List Char) :
    (match stripLit "http://".data (schemeChars secure ++ rest) with
      | some r => some r
      | none => stripLit "https://".data (schemeChars secure ++ rest)) = some rest := by
  cases secure with
  | false => simp [schemeChars, stripLit]
  | true =>
    simp [schemeChars, stripLit, (by decide : ((':' : Char) == 's') = false)]

/-- `urlparse` components of a rendered URL without a query part. -/
lemma urlparseComponents_noquery (secure : Bool) (netlocL pathRest : List Char)
    (hn : ∀ c ∈ netlocL, netlocStop c = false)
    (hp : ∀ c ∈ pathRest, pathStop c = false) :
    urlparseComponents (schemeChars secure ++ (netlocL ++ ('/' :: pathRest))) =
      some (netlocL, '/' :: pathRest, []) := by
  simp only [urlparseComponents]
  rw [afterScheme_eval]
  have hnet : (netlocL ++ ('/' :: pathRest)).takeWhile (fun c => !netlocStop c)
      = netlocL := by
    rw [takeWhile_append_all _ _ _ fun c hc => by simp [hn c hc]]
    rw [takeWhile_cons_false _ _ _ (by decide)]
    simp
  have hpath : ('/' :: pathRest).takeWhile (fun c => !pathStop c)
      = '/' :: pathRest :=
    takeWhile_all _ _ (by
      intro c hc
      rcases List.mem_cons.mp hc with rfl | hmem
      · decide
      · simp [hp c hmem])
  simp only [Option.map_some']
  rw [hnet]
  rw [List.drop_left]
  rw [hpath]
  rw [List.drop_length]

/-- `urlparse` components of a rendered URL with a query part. -/
lemma urlparseComponents_query (secure : Bool) (netlocL pathRest q : List Char)
    (hn : ∀ c ∈ netlocL, netlocStop c = false)
    (hp : ∀ c ∈ pathRest, pathStop c = false)
    (hq : ∀ c ∈ q, (c == '#') = false) :
    urlparseComponents
        (schemeChars secure ++ (netlocL ++ ('/' :: (pathRest ++ '?' :: q)))) =
      some (netlocL, '/' :: pathRest, q) := by
  simp only [urlparseComponents]
  rw [afterScheme_eval]
  have hnet : (netlocL ++ ('/' :: (pathRest ++ '?' :: q))).takeWhile
      (fun c => !netlocStop c) = netlocL := by
    rw [takeWhile_append_all _ _ _ fun c hc => by simp [hn c hc]]
    rw [takeWhile_cons_false _ _ _ (by decide)]
    simp
  have hpath : ('/' :: (pathRest ++ '?' :: q)).takeWhile (fun c => !pathStop c)
      = '/' :: pathRest := by
    rw [List.takeWhile_cons]
    simp only [show (!pathStop '/') = true from by decide, if_true]
    rw [takeWhile_append_all _ _ _ fun c hc => by simp [hp c hc]]
    rw [takeWhile_cons_false _ _ _ (by decide)]
    simp
  have hdrop2 : ('/' :: (pathRest ++ '?' :: q)).drop ('/' :: pathRest).length
      = '?' :: q := by
    rw [show ('/' :: (pathRest ++ '?' :: q)) = ('/' :: pathRest) ++ '?' :: q from by
      simp]
    exact List.drop_left _ _
  simp only [Option.map_some']
  rw [hnet]
  rw [List.drop_left]
  rw [hpath, hdrop2]
  simp only [beq_self_eq_true, if_true]
  rw [takeWhile_all _ _ fun c hc => by simp [hq c hc]]

/-- `parse_qs(query).get('v', [None])[0]` on a rendered
`v=ID[&k=v...]` query: the identifier wins. -/
lemma parseQsGetV_v_first (id rest : List Char) (hidne : id ≠ [])
    (hidc : ∀ c ∈ id, idChar c = true)
    (hrest : rest = [] ∨ ∃ r', rest = '&' :: r') :
    parseQsGetV ("v=".data ++ id ++ rest) = some id := by
  have hno : ∀ c ∈ "v=".data ++ id, c ≠ '&' := by
    intro c hc
    rcases List.mem_append.mp hc with h1 | h2
    · rw [show ("v=").data = ['v', '='] from by decide] at h1
      rcases List.mem_cons.mp h1 with rfl | h1
      · decide
      · rcases List.mem_cons.mp h1 with rfl | h1
        · decide
        · simp at h1
    · exact (idChar_facts c (hidc c h2)).2.2.2.1
  have hcons : "v=".data ++ id = 'v' :: '=' :: id := by
    rw [show ("v=").data = ['v', '='] from by decide]
    simp
  have hpairs : ∃ tail, splitOnChar '&' ("v=".data ++ id ++ rest) =
      ("v=".data ++ id) :: tail := by
    rcases hrest with rfl | ⟨r', rfl⟩
    · refine ⟨[], ?_⟩
      rw [List.append_nil]
      exact splitOnChar_no_sep _ _ hno
    · refine ⟨splitOnChar '&' r', ?_⟩
      rw [List.append_assoc]
      exact splitOnChar_append_sep _ _ _ hno
  obtain ⟨tail, htail⟩ := hpairs
  have hbeq : (('=' : Char) == 'v') = false := by decide
  have hcontains : containsCL ['='] ('v' :: '=' :: id) = true := by
    simp [containsCL, startsWithCL, hbeq]
  have hval : afterFirstSub ['='] ('v' :: '=' :: id) = id := by
    simp [afterFirstSub, startsWithCL, hbeq]
  have hname : beforeFirstSub ['='] ('v' :: '=' :: id) = ['v'] := by
    simp [beforeFirstSub, startsWithCL, hbeq]
  have hvne : id.isEmpty = false := by
    cases id with
    | nil => simp at hidne
    | cons a as => rfl
  unfold parseQsGetV
  rw [htail, hcons]
  simp only [List.filterMap_cons, List.isEmpty_cons, hcontains, hval, hname, hvne]
  simp [List.find?_cons]

end YTCourse

namespace YTCourse

lemma stringData_mk (l : List Char) : (String.mk l).data = l := rfl

lemma containsCL_of_startsWith (pat : List Char) (s : List Char)
    (h : startsWithCL pat s = true) : containsCL pat s = true := by
  cases s with
  | nil => simpa [containsCL] using h
  | cons c rest => simp [containsCL, h]

lemma renderParamsAmp_shape (ps : List (List Char × List Char)) :
    renderParamsAmp ps = [] ∨ ∃ r', renderParamsAmp ps = '&' :: r' := by
  cases ps with
  | nil => left; rfl
  | cons kv rest => right; exact ⟨_, rfl⟩

/-- Characters of a rendered `?k=v&...` query tail. -/
lemma renderQnTail_chars (kv : List Char × List Char)
    (rest : List (List Char × List Char))
    (hkv : kv.1 ≠ [] ∧ kv.2 ≠ [] ∧ (∀ c ∈ kv.1, idChar c = true) ∧
      ∀ c ∈ kv.2, idChar c = true)
    (hrest : wfParams rest) :
    ∀ c ∈ kv.1 ++ '=' :: kv.2 ++ renderParamsAmp rest,
      c = '&' ∨ c = '=' ∨ idChar c = true := by
  intro c hc
  rcases List.mem_append.mp hc with hc1 | hc2
  · rcases List.mem_append.mp hc1 with hk | hv
    · right; right; exact hkv.2.2.1 c hk
    · rcases List.mem_cons.mp hv with rfl | hv
      · right; left; rfl
      · right; right; exact hkv.2.2.2 c hv
  · exact renderParamsAmp_chars rest hrest c hc2

lemma ampchar_ne_hash (c : Char) (h : c = '&' ∨ c = '=' ∨ idChar c = true) :
    (c == '#') = false := by
  rcases h with rfl | rfl | h
  · decide
  · decide
  · exact (idChar_facts c h).2.2.1

/-- `path.split('/shorts/')[-1]` on a rendered shorts path. -/
lemma afterLastSub_shorts (id : List Char)
    (hidc : ∀ c ∈ id, idChar c = true) :
    afterLastSub "/shorts/".data ('/' :: ("shorts/".data ++ id)) = id := by
  unfold afterLastSub
  have e2 : ("shorts/".data).reverse ++ ['/'] = '/' :: "strohs/".data := by decide
  have e : ('/' :: ("shorts/".data ++ id)).reverse =
      id.reverse ++ ('/' :: "strohs/".data) := by
    rw [List.reverse_cons, List.reverse_append, List.append_assoc, e2]
  rw [e]
  rw [show ("/shorts/".data).reverse = '/' :: "strohs/".data from by decide]
  rw [beforeFirstSub_append '/' "strohs/".data id.reverse ('/' :: "strohs/".data)
    (fun c hc =>
      (idChar_facts c (hidc c (List.mem_reverse.mp hc))).2.2.2.2.2.1)
    (startsWithCL_self _)]
  exact List.reverse_reverse id

end YTCourse

namespace YTCourse

/-! ### Pattern acceptance on the canonical rendered URL forms -/

lemma patWatch_www (secure : Bool) (c : Char) (id' tail : List Char)
    (hc : idChar c = true) :
    patWatch (schemeChars secure ++ ("www.youtube.com".data ++
      ('/' :: ("watch".data ++ '?' :: ("v=".data ++ (c :: id') ++ tail))))) = true := by
  unfold patWatch
  rw [matchScheme_eval]
  simp [optGroup, litThenId, stripLit, idPlus, hc]

lemma patWatch_bare (secure : Bool) (c : Char) (id' tail : List Char)
    (hc : idChar c = true) :
    patWatch (schemeChars secure ++ ("youtube.com".data ++
      ('/' :: ("watch".data ++ '?' :: ("v=".data ++ (c :: id') ++ tail))))) = true := by
  unfold patWatch
  rw [matchScheme_eval]
  simp [optGroup, litThenId, stripLit, idPlus, hc,
    (by decide : (('w' : Char) == 'y') = false)]

lemma patMobile_m (secure : Bool) (c : Char) (id' tail : List Char)
    (hc : idChar c = true) :
    patMobile (schemeChars secure ++ ("m.youtube.com".data ++
      ('/' :: ("watch".data ++ '?' :: ("v=".data ++ (c :: id') ++ tail))))) = true := by
  unfold patMobile
  rw [matchScheme_eval]
  simp [optGroup, litThenId, stripLit, idPlus, hc]

lemma patShortlink_eval (secure : Bool) (c : Char) (tail : List Char)
    (hc : idChar c = true) :
    patShortlink (schemeChars secure ++ ("youtu.be".data ++ ('/' :: (c :: tail)))) =
      true := by
  unfold patShortlink
  rw [matchScheme_eval]
  simp [litThenId, stripLit, idPlus, hc]

lemma patShorts_www (secure : Bool) (c : Char) (tail : List Char)
    (hc : idChar c = true) :
    patShorts (schemeChars secure ++ ("www.youtube.com".data ++
      ('/' :: ("shorts/".data ++ (c :: tail))))) = true := by
  unfold patShorts
  rw [matchScheme_eval]
  simp [optGroup, litThenId, stripLit, idPlus, hc]

lemma patShorts_bare (secure : Bool) (c : Char) (tail : List Char)
    (hc : idChar c = true) :
    patShorts (schemeChars secure ++ ("youtube.com".data ++
      ('/' :: ("shorts/".data ++ (c :: tail))))) = true := by
  unfold patShorts
  rw [matchScheme_eval]
  simp [optGroup, litThenId, stripLit, idPlus, hc,
    (by decide : (('w' : Char) == 'y') = false)]

lemma patShortsMobile_m (secure : Bool) (c : Char) (tail : List Char)
    (hc : idChar c = true) :
    patShortsMobile (schemeChars secure ++ ("m.youtube.com".data ++
      ('/' :: ("shorts/".data ++ (c :: tail))))) = true := by
  unfold patShortsMobile
  rw [matchScheme_eval]
  simp [optGroup, litThenId, stripLit, idPlus, hc]

end YTCourse

namespace YTCourse

lemma validateStr_mk (L : List Char) :
    validateStr ⟨L⟩ =
      (patWatch L || patShortlink L || patMobile L || patShorts L ||
        patShortsMobile L) := rfl

lemma vEqData : ("v=").data = ['v', '='] := by decide

/-- Characters of the `v=ID&...` watch query are never `#`. -/
lemma watchQuery_no_hash (id : List Char) (ps : List (List Char × List Char))
    (hidc : ∀ c ∈ id, idChar c = true) (hps : wfParams ps) :
    ∀ c ∈ "v=".data ++ id ++ renderParamsAmp ps, (c == '#') = false := by
  intro c hc
  rcases List.mem_append.mp hc with h1 | h2
  · rcases List.mem_append.mp h1 with h3 | h4
    · rw [vEqData] at h3
      rcases List.mem_cons.mp h3 with rfl | h3
      · decide
      · rcases List.mem_cons.mp h3 with rfl | h3
        · decide
        · simp at h3
    · exact (idChar_facts c (hidc c h4)).2.2.1
  · exact ampchar_ne_hash c (renderParamsAmp_chars ps hps c h2)

/-- `extract_video_id` on a canonical watch-style URL over a
`youtube.com` host: the first `v` parameter is returned. -/
lemma extract_watch_family (secure : Bool) (netlocL : List Char)
    (id : List Char) (ps : List (List Char × List Char))
    (hn : ∀ c ∈ netlocL, netlocStop c = false)
    (hn2 : containsCL "youtu.be".data netlocL = false)
    (hn3 : containsCL "youtube.com".data netlocL = true)
    (hshorts : containsCL "/shorts/".data ('/' :: "watch".data) = false)
    (hidne : id ≠ []) (hidc : ∀ c ∈ id, idChar c = true)
    (hps : wfParams ps)
    (hval : validateStr ⟨schemeChars secure ++ (netlocL ++
      ('/' :: ("watch".data ++ '?' :: ("v=".data ++ id ++ renderParamsAmp ps))))⟩ =
      true) :
    extract_video_id_str ⟨schemeChars secure ++ (netlocL ++
      ('/' :: ("watch".data ++ '?' :: ("v=".data ++ id ++ renderParamsAmp ps))))⟩ =
      some ⟨id⟩ := by
  have hup := urlparseComponents_query secure netlocL "watch".data
    ("v=".data ++ id ++ renderParamsAmp ps) hn
    (by decide : ∀ c ∈ "watch".data, pathStop c = false)
    (watchQuery_no_hash id ps hidc hps)
  have hqs := parseQsGetV_v_first id (renderParamsAmp ps) hidne hidc
    (renderParamsAmp_shape ps)
  unfold extract_video_id_str
  rw [hval]
  rw [stringData_mk, hup]
  simp only [Bool.not_true, Bool.false_eq_true, if_false]
  rw [if_neg (by simp [hn2]), if_pos (by simp [hn3]), if_neg (by simp [hshorts])]
  rw [hqs]
  rfl

/-- `extract_video_id` on a canonical `youtu.be` short-link URL without
query parameters. -/
lemma extract_shortlink_noquery (secure : Bool) (id : List Char)
    (hidc : ∀ c ∈ id, idChar c = true)
    (hval : validateStr ⟨schemeChars secure ++ ("youtu.be".data ++ ('/' :: id))⟩ =
      true) :
    extract_video_id_str ⟨schemeChars secure ++ ("youtu.be".data ++ ('/' :: id))⟩ =
      some ⟨id⟩ := by
  have hup := urlparseComponents_noquery secure "youtu.be".data id
    (by decide : ∀ c ∈ "youtu.be".data, netlocStop c = false)
    (fun c hc => (idChar_facts c (hidc c hc)).2.1)
  unfold extract_video_id_str
  rw [hval]
  rw [stringData_mk, hup]
  simp only [Bool.not_true, Bool.false_eq_true, if_false]
  rw [if_pos (by decide : containsCL "youtu.be".data ("youtu.be".data) = true)]
  rfl

/-- `extract_video_id` on a canonical `youtu.be` short-link URL with
query parameters. -/
lemma extract_shortlink_query (secure : Bool) (id : List Char)
    (kv : List Char × List Char) (rest : List (List Char × List Char))
    (hidc : ∀ c ∈ id, idChar c = true)
    (hkv : kv.1 ≠ [] ∧ kv.2 ≠ [] ∧ (∀ c ∈ kv.1, idChar c = true) ∧
      ∀ c ∈ kv.2, idChar c = true)
    (hrest : wfParams rest)
    (hval : validateStr ⟨schemeChars secure ++ ("youtu.be".data ++
      ('/' :: (id ++ '?' :: (kv.1 ++ '=' :: kv.2 ++ renderParamsAmp rest))))⟩ =
      true) :
    extract_video_id_str ⟨schemeChars secure ++ ("youtu.be".data ++
      ('/' :: (id ++ '?' :: (kv.1 ++ '=' :: kv.2 ++ renderParamsAmp rest))))⟩ =
      some ⟨id⟩ := by
  have hup := urlparseComponents_query secure "youtu.be".data id
    (kv.1 ++ '=' :: kv.2 ++ renderParamsAmp rest)
    (by decide : ∀ c ∈ "youtu.be".data, netlocStop c = false)
    (fun c hc => (idChar_facts c (hidc c hc)).2.1)
    (fun c hc => ampchar_ne_hash c (renderQnTail_chars kv rest hkv hrest c hc))
  unfold extract_video_id_str
  rw [hval]
  rw [stringData_mk, hup]
  simp only [Bool.not_true, Bool.false_eq_true, if_false]
  rw [if_pos (by decide : containsCL "youtu.be".data ("youtu.be".data) = true)]
  rfl

end YTCourse

namespace YTCourse

/-! ### The accepted shapes validate and extract correctly -/

lemma shape_watchlike_ok (secure : Bool) (netlocL : List Char)
    (id : List Char) (ps : List (List Char × List Char))
    (hn : ∀ c ∈ netlocL, netlocStop c = false)
    (hn2 : containsCL "youtu.be".data netlocL = false)
    (hn3 : containsCL "youtube.com".data netlocL = true)
    (hid : wfId id) (hps : wfParams ps)
    (hval : validateStr ⟨schemeChars secure ++ (netlocL ++
      ('/' :: ("watch".data ++ '?' :: ("v=".data ++ id ++ renderParamsAmp ps))))⟩ =
      true) :
    extract_video_id_str ⟨schemeChars secure ++ (netlocL ++
      ('/' :: ("watch".data ++ '?' :: ("v=".data ++ id ++ renderParamsAmp ps))))⟩ =
      some ⟨id⟩ :=
  extract_watch_family secure netlocL id ps hn hn2 hn3 (by decide)
    hid.1 hid.2 hps hval

lemma shape_watch_ok (www secure : Bool) (id : List Char)
    (ps : List (List Char × List Char)) (hid : wfId id) (hps : wfParams ps) :
    validateStr (renderUrl (.watch www) secure id ps) = true ∧
    extract_video_id_str (renderUrl (.watch www) secure id ps) = some ⟨id⟩ := by
  obtain ⟨hidne, hidc⟩ := hid
  obtain ⟨c, id', rfl⟩ : ∃ c id', id = c :: id' := by
    cases id with
    | nil => exact absurd rfl hidne
    | cons c id' => exact ⟨c, id', rfl⟩
  have hc : idChar c = true := hidc c (by simp)
  cases www with
  | true =>
    have hurl : renderUrl (.watch true) secure (c :: id') ps =
        ⟨schemeChars secure ++ ("www.youtube.com".data ++
          ('/' :: ("watch".data ++ '?' ::
            ("v=".data ++ (c :: id') ++ renderParamsAmp ps))))⟩ :=
      congrArg String.mk (by simp [List.append_assoc])
    have hval : validateStr ⟨schemeChars secure ++ ("www.youtube.com".data ++
        ('/' :: ("watch".data ++ '?' ::
          ("v=".data ++ (c :: id') ++ renderParamsAmp ps))))⟩ = true := by
      rw [validateStr_mk]
      simp only [patWatch_www secure c id' (renderParamsAmp ps) hc,
        Bool.true_or, Bool.or_true]
    rw [hurl]
    exact ⟨hval, shape_watchlike_ok secure "www.youtube.com".data (c :: id') ps
      (by decide) (by decide) (by decide) ⟨by simp, hidc⟩ hps hval⟩
  | false =>
    have hurl : renderUrl (.watch false) secure (c :: id') ps =
        ⟨schemeChars secure ++ ("youtube.com".data ++
          ('/' :: ("watch".data ++ '?' ::
            ("v=".data ++ (c :: id') ++ renderParamsAmp ps))))⟩ :=
      congrArg String.mk (by simp [List.append_assoc])
    have hval : validateStr ⟨schemeChars secure ++ ("youtube.com".data ++
        ('/' :: ("watch".data ++ '?' ::
          ("v=".data ++ (c :: id') ++ renderParamsAmp ps))))⟩ = true := by
      rw [validateStr_mk]
      simp only [patWatch_bare secure c id' (renderParamsAmp ps) hc,
        Bool.true_or, Bool.or_true]
    rw [hurl]
    exact ⟨hval, shape_watchlike_ok secure "youtube.com".data (c :: id') ps
      (by decide) (by decide) (by decide) ⟨by simp, hidc⟩ hps hval⟩

lemma shape_mobileWatch_ok (secure : Bool) (id : List Char)
    (ps : List (List Char × List Char)) (hid : wfId id) (hps : wfParams ps) :
    validateStr (renderUrl .mobileWatch secure id ps) = true ∧
    extract_video_id_str (renderUrl .mobileWatch secure id ps) = some ⟨id⟩ := by
  obtain ⟨hidne, hidc⟩ := hid
  obtain ⟨c, id', rfl⟩ : ∃ c id', id = c :: id' := by
    cases id with
    | nil => exact absurd rfl hidne
    | cons c id' => exact ⟨c, id', rfl⟩
  have hc : idChar c = true := hidc c (by simp)
  have hurl : renderUrl .mobileWatch secure (c :: id') ps =
      ⟨schemeChars secure ++ ("m.youtube.com".data ++
        ('/' :: ("watch".data ++ '?' ::
          ("v=".data ++ (c :: id') ++ renderParamsAmp ps))))⟩ :=
    congrArg String.mk (by simp [List.append_assoc])
  have hval : validateStr ⟨schemeChars secure ++ ("m.youtube.com".data ++
      ('/' :: ("watch".data ++ '?' ::
        ("v=".data ++ (c :: id') ++ renderParamsAmp ps))))⟩ = true := by
    rw [validateStr_mk]
    simp only [patMobile_m secure c id' (renderParamsAmp ps) hc,
      Bool.true_or, Bool.or_true]
  rw [hurl]
  exact ⟨hval, shape_watchlike_ok secure "m.youtube.com".data (c :: id') ps
    (by decide) (by decide) (by decide) ⟨by simp, hidc⟩ hps hval⟩

lemma shape_shortlink_ok (secure : Bool) (id : List Char)
    (ps : List (List Char × List Char)) (hid : wfId id) (hps : wfParams ps) :
    validateStr (renderUrl .shortlink secure id ps) = true ∧
    extract_video_id_str (renderUrl .shortlink secure id ps) = some ⟨id⟩ := by
  obtain ⟨hidne, hidc⟩ := hid
  obtain ⟨c, id', rfl⟩ : ∃ c id', id = c :: id' := by
    cases id with
    | nil => exact absurd rfl hidne
    | cons c id' => exact ⟨c, id', rfl⟩
  have hc : idChar c = true := hidc c (by simp)
  cases ps with
  | nil =>
    have hurl : renderUrl .shortlink secure (c :: id') [] =
        ⟨schemeChars secure ++ ("youtu.be".data ++ ('/' :: (c :: id')))⟩ :=
      congrArg String.mk (by simp [renderParamsQn, List.append_assoc])
    have hval : validateStr
        ⟨schemeChars secure ++ ("youtu.be".data ++ ('/' :: (c :: id')))⟩ = true := by
      rw [validateStr_mk]
      simp only [patShortlink_eval secure c id' hc, Bool.true_or, Bool.or_true]
    rw [hurl]
    exact ⟨hval, extract_shortlink_noquery secure (c :: id') hidc hval⟩
  | cons kv rest =>
    have hurl : renderUrl .shortlink secure (c :: id') (kv :: rest) =
        ⟨schemeChars secure ++ ("youtu.be".data ++ ('/' :: ((c :: id') ++ '?' ::
          (kv.1 ++ '=' :: kv.2 ++ renderParamsAmp rest))))⟩ :=
      congrArg String.mk (by simp [renderParamsQn, List.append_assoc])
    have hval : validateStr ⟨schemeChars secure ++ ("youtu.be".data ++
        ('/' :: ((c :: id') ++ '?' ::
          (kv.1 ++ '=' :: kv.2 ++ renderParamsAmp rest))))⟩ = true := by
      rw [validateStr_mk]
      have hp := patShortlink_eval secure c
        (id' ++ '?' :: (kv.1 ++ '=' :: kv.2 ++ renderParamsAmp rest)) hc
      rw [show ((c :: id') ++ '?' ::
          (kv.1 ++ '=' :: kv.2 ++ renderParamsAmp rest)) = c :: (id' ++ '?' ::
          (kv.1 ++ '=' :: kv.2 ++ renderParamsAmp rest)) from by simp]
      simp only [hp, Bool.true_or, Bool.or_true]
    rw [hurl]
    refine ⟨hval, extract_shortlink_query secure (c :: id') kv rest hidc
      ?_ (fun p hp => hps p (by simp [hp])) hval⟩
    exact hps kv (by simp)

end YTCourse

namespace YTCourse

/-- Shared tail of the shorts-URL extraction argument: once `urlparse`
has produced netloc and a `/shorts/ID` path, the id is returned. -/
lemma extract_shorts_tail (netlocL id query : List Char)
    (hn2 : containsCL "youtu.be".data netlocL = false)
    (hn3 : containsCL "youtube.com".data netlocL = true)
    (hidne : id ≠ []) (hidc : ∀ c ∈ id, idChar c = true) :
    (if containsCL "youtu.be".data netlocL then
        some (⟨('/' :: ("shorts/".data ++ id)).drop 1⟩ : String)
      else if containsCL "youtube.com".data netlocL then
        if containsCL "/shorts/".data ('/' :: ("shorts/".data ++ id)) then
          let videoId := beforeFirstSub ['?'] (beforeFirstSub ['/']
            (afterLastSub "/shorts/".data ('/' :: ("shorts/".data ++ id))))
          if videoId.isEmpty then none
          else some (⟨beforeFirstSub ['?'] videoId⟩ : String)
        else (parseQsGetV query).map fun l => (⟨l⟩ : String)
      else none) = some ⟨id⟩ := by
  have hpathContains :
      containsCL "/shorts/".data ('/' :: ("shorts/".data ++ id)) = true := by
    apply containsCL_of_startsWith
    have h := startsWithCL_append "/shorts/".data id
    rw [show ("/shorts/").data ++ id = '/' :: ("shorts/".data ++ id) from by
      rw [show ("/shorts/").data = '/' :: "shorts/".data from by decide]
      simp] at h
    exact h
  have hlast := afterLastSub_shorts id hidc
  have hslash : beforeFirstSub ['/'] id = id :=
    beforeFirstSub_all '/' [] id fun c hc =>
      (idChar_facts c (hidc c hc)).2.2.2.2.2.1
  have hqm : beforeFirstSub ['?'] id = id :=
    beforeFirstSub_all '?' [] id fun c hc =>
      (idChar_facts c (hidc c hc)).2.2.2.2.2.2.1
  have hvne : id.isEmpty = false := by
    cases id with
    | nil => simp at hidne
    | cons a as => rfl
  rw [if_neg (by simp [hn2]), if_pos (by simp [hn3]), if_pos hpathContains]
  rw [hlast, hslash, hqm]
  simp [hvne, hqm]

/-- `extract_video_id` on a canonical shorts URL without query
parameters. -/
lemma extract_shorts_noquery (secure : Bool) (netlocL id : List Char)
    (hn : ∀ c ∈ netlocL, netlocStop c = false)
    (hn2 : containsCL "youtu.be".data netlocL = false)
    (hn3 : containsCL "youtube.com".data netlocL = true)
    (hidne : id ≠ []) (hidc : ∀ c ∈ id, idChar c = true)
    (hval : validateStr ⟨schemeChars secure ++ (netlocL ++
      ('/' :: ("shorts/".data ++ id)))⟩ = true) :
    extract_video_id_str ⟨schemeChars secure ++ (netlocL ++
      ('/' :: ("shorts/".data ++ id)))⟩ = some ⟨id⟩ := by
  have hpathStop : ∀ x ∈ "shorts/".data ++ id, pathStop x = false := by
    intro x hx
    rcases List.mem_append.mp hx with h1 | h2
    · exact (by decide : ∀ y ∈ ("shorts/").data, pathStop y = false) x h1
    · exact (idChar_facts x (hidc x h2)).2.1
  have hup := urlparseComponents_noquery secure netlocL ("shorts/".data ++ id)
    hn hpathStop
  unfold extract_video_id_str
  rw [hval]
  rw [stringData_mk, hup]
  simp only [Bool.not_true, Bool.false_eq_true, if_false]
  exact extract_shorts_tail netlocL id [] hn2 hn3 hidne hidc

/-- `extract_video_id` on a canonical shorts URL with query
parameters. -/
lemma extract_shorts_query (secure : Bool) (netlocL id : List Char)
    (kv : List Char × List Char) (rest : List (List Char × List Char))
    (hn : ∀ c ∈ netlocL, netlocStop c = false)
    (hn2 : containsCL "youtu.be".data netlocL = false)
    (hn3 : containsCL "youtube.com".data netlocL = true)
    (hidne : id ≠ []) (hidc : ∀ c ∈ id, idChar c = true)
    (hkv : kv.1 ≠ [] ∧ kv.2 ≠ [] ∧ (∀ c ∈ kv.1, idChar c = true) ∧
      ∀ c ∈ kv.2, idChar c = true)
    (hrest : wfParams rest)
    (hval : validateStr ⟨schemeChars secure ++ (netlocL ++
      ('/' :: (("shorts/".data ++ id) ++ '?' ::
        (kv.1 ++ '=' :: kv.2 ++ renderParamsAmp rest))))⟩ = true) :
    extract_video_id_str ⟨schemeChars secure ++ (netlocL ++
      ('/' :: (("shorts/".data ++ id) ++ '?' ::
        (kv.1 ++ '=' :: kv.2 ++ renderParamsAmp rest))))⟩ = some ⟨id⟩ := by
  have hpathStop : ∀ x ∈ "shorts/".data ++ id, pathStop x = false := by
    intro x hx
    rcases List.mem_append.mp hx with h1 | h2
    · exact (by decide : ∀ y ∈ ("shorts/").data, pathStop y = false) x h1
    · exact (idChar_facts x (hidc x h2)).2.1
  have hup := urlparseComponents_query secure netlocL ("shorts/".data ++ id)
    (kv.1 ++ '=' :: kv.2 ++ renderParamsAmp rest) hn hpathStop
    (fun c hc => ampchar_ne_hash c (renderQnTail_chars kv rest hkv hrest c hc))
  unfold extract_video_id_str
  rw [hval]
  rw [stringData_mk, hup]
  simp only [Bool.not_true, Bool.false_eq_true, if_false]
  exact extract_shorts_tail netlocL id
    (kv.1 ++ '=' :: kv.2 ++ renderParamsAmp rest) hn2 hn3 hidne hidc

end YTCourse

namespace YTCourse

lemma shape_shorts_ok (host : HostPrefix) (secure : Bool) (id : List Char)
    (ps : List (List Char × List Char)) (hid : wfId id) (hps : wfParams ps) :
    validateStr (renderUrl (.shorts host) secure id ps) = true ∧
    extract_video_id_str (renderUrl (.shorts host) secure id ps) = some ⟨id⟩ := by
  obtain ⟨hidne, hidc⟩ := hid
  obtain ⟨c, id', rfl⟩ : ∃ c id', id = c :: id' := by
    cases id with
    | nil => exact absurd rfl hidne
    | cons c id' => exact ⟨c, id', rfl⟩
  have hc : idChar c = true := hidc c (by simp)
  cases host with
  | bare =>
    cases ps with
    | nil =>
      have hurl : renderUrl (.shorts .bare) secure (c :: id') [] =
          ⟨schemeChars secure ++ ("youtube.com".data ++
            ('/' :: ("shorts/".data ++ (c :: id'))))⟩ :=
        congrArg String.mk (by simp [renderParamsQn, hostPrefixChars, List.append_assoc])
      have hval : validateStr ⟨schemeChars secure ++ ("youtube.com".data ++
          ('/' :: ("shorts/".data ++ (c :: id'))))⟩ = true := by
        rw [validateStr_mk]
        simp only [patShorts_bare secure c id' hc, Bool.true_or, Bool.or_true]
      rw [hurl]
      exact ⟨hval, extract_shorts_noquery secure "youtube.com".data (c :: id')
        (by decide) (by decide) (by decide) (by simp) hidc hval⟩
    | cons kv rest =>
      have hurl : renderUrl (.shorts .bare) secure (c :: id') (kv :: rest) =
          ⟨schemeChars secure ++ ("youtube.com".data ++
            ('/' :: (("shorts/".data ++ (c :: id')) ++ '?' ::
              (kv.1 ++ '=' :: kv.2 ++ renderParamsAmp rest))))⟩ :=
        congrArg String.mk (by simp [renderParamsQn, hostPrefixChars, List.append_assoc])
      have hval : validateStr ⟨schemeChars secure ++ ("youtube.com".data ++
          ('/' :: (("shorts/".data ++ (c :: id')) ++ '?' ::
            (kv.1 ++ '=' :: kv.2 ++ renderParamsAmp rest))))⟩ = true := by
        rw [validateStr_mk]
        have hp := patShorts_bare secure c
          (id' ++ '?' :: (kv.1 ++ '=' :: kv.2 ++ renderParamsAmp rest)) hc
        rw [show (("shorts/".data ++ (c :: id')) ++ '?' ::
            (kv.1 ++ '=' :: kv.2 ++ renderParamsAmp rest)) = "shorts/".data ++
            (c :: (id' ++ '?' :: (kv.1 ++ '=' :: kv.2 ++ renderParamsAmp rest)))
          from by simp]
        simp only [hp, Bool.true_or, Bool.or_true]
      rw [hurl]
      exact ⟨hval, extract_shorts_query secure "youtube.com".data (c :: id') kv rest
        (by decide) (by decide) (by decide) (by simp) hidc (hps kv (by simp))
        (fun p hp => hps p (by simp [hp])) hval⟩
  | www =>
    cases ps with
    | nil =>
      have hurl : renderUrl (.shorts .www) secure (c :: id') [] =
          ⟨schemeChars secure ++ ("www.youtube.com".data ++
            ('/' :: ("shorts/".data ++ (c :: id'))))⟩ :=
        congrArg String.mk (by simp [renderParamsQn, hostPrefixChars, List.append_assoc])
      have hval : validateStr ⟨schemeChars secure ++ ("www.youtube.com".data ++
          ('/' :: ("shorts/".data ++ (c :: id'))))⟩ = true := by
        rw [validateStr_mk]
        simp only [patShorts_www secure c id' hc, Bool.true_or, Bool.or_true]
      rw [hurl]
      exact ⟨hval, extract_shorts_noquery secure "www.youtube.com".data (c :: id')
        (by decide) (by decide) (by decide) (by simp) hidc hval⟩
    | cons kv rest =>
      have hurl : renderUrl (.shorts .www) secure (c :: id') (kv :: rest) =
          ⟨schemeChars secure ++ ("www.youtube.com".data ++
            ('/' :: (("shorts/".data ++ (c :: id')) ++ '?' ::
              (kv.1 ++ '=' :: kv.2 ++ renderParamsAmp rest))))⟩ :=
        congrArg String.mk (by simp [renderParamsQn, hostPrefixChars, List.append_assoc])
      have hval : validateStr ⟨schemeChars secure ++ ("www.youtube.com".data ++
          ('/' :: (("shorts/".data ++ (c :: id')) ++ '?' ::
            (kv.1 ++ '=' :: kv.2 ++ renderParamsAmp rest))))⟩ = true := by
        rw [validateStr_mk]
        have hp := patShorts_www secure c
          (id' ++ '?' :: (kv.1 ++ '=' :: kv.2 ++ renderParamsAmp rest)) hc
        rw [show (("shorts/".data ++ (c :: id')) ++ '?' ::
            (kv.1 ++ '=' :: kv.2 ++ renderParamsAmp rest)) = "shorts/".data ++
            (c :: (id' ++ '?' :: (kv.1 ++ '=' :: kv.2 ++ renderParamsAmp rest)))
          from by simp]
        simp only [hp, Bool.true_or, Bool.or_true]
      rw [hurl]
      exact ⟨hval, extract_shorts_query secure "www.youtube.com".data (c :: id')
        kv rest (by decide) (by decide) (by decide) (by simp) hidc
        (hps kv (by simp)) (fun p hp => hps p (by simp [hp])) hval⟩
  | mdot =>
    cases ps with
    | nil =>
      have hurl : renderUrl (.shorts .mdot) secure (c :: id') [] =
          ⟨schemeChars secure ++ ("m.youtube.com".data ++
            ('/' :: ("shorts/".data ++ (c :: id'))))⟩ :=
        congrArg String.mk (by simp [renderParamsQn, hostPrefixChars, List.append_assoc])
      have hval : validateStr ⟨schemeChars secure ++ ("m.youtube.com".data ++
          ('/' :: ("shorts/".data ++ (c :: id'))))⟩ = true := by
        rw [validateStr_mk]
        simp only [patShortsMobile_m secure c id' hc, Bool.true_or, Bool.or_true]
      rw [hurl]
      exact ⟨hval, extract_shorts_noquery secure "m.youtube.com".data (c :: id')
        (by decide) (by decide) (by decide) (by simp) hidc hval⟩
    | cons kv rest =>
      have hurl : renderUrl (.shorts .mdot) secure (c :: id') (kv :: rest) =
          ⟨schemeChars secure ++ ("m.youtube.com".data ++
            ('/' :: (("shorts/".data ++ (c :: id')) ++ '?' ::
              (kv.1 ++ '=' :: kv.2 ++ renderParamsAmp rest))))⟩ :=
        congrArg String.mk (by simp [renderParamsQn, hostPrefixChars, List.append_assoc])
      have hval : validateStr ⟨schemeChars secure ++ ("m.youtube.com".data ++
          ('/' :: (("shorts/".data ++ (c :: id')) ++ '?' ::
            (kv.1 ++ '=' :: kv.2 ++ renderParamsAmp rest))))⟩ = true := by
        rw [validateStr_mk]
        have hp := patShortsMobile_m secure c
          (id' ++ '?' :: (kv.1 ++ '=' :: kv.2 ++ renderParamsAmp rest)) hc
        rw [show (("shorts/".data ++ (c :: id')) ++ '?' ::
            (kv.1 ++ '=' :: kv.2 ++ renderParamsAmp rest)) = "shorts/".data ++
            (c :: (id' ++ '?' :: (kv.1 ++ '=' :: kv.2 ++ renderParamsAmp rest)))
          from by simp]
        simp only [hp, Bool.true_or, Bool.or_true]
      rw [hurl]
      exact ⟨hval, extract_shorts_query secure "m.youtube.com".data (c :: id')
        kv rest (by decide) (by decide) (by decide) (by simp) hidc
        (hps kv (by simp)) (fun p hp => hps p (by simp [hp])) hval⟩

end YTCourse

namespace YTCourse

/-! ### `re.match` is a prefix match: acceptance is closed under
appending arbitrary characters. -/

lemma stripLit_mono (pat s t r : List Char) (h : stripLit pat s = some r) :
    stripLit pat (s ++ t) = some (r ++ t) := by
  induction pat generalizing s with
  | nil =>
    simp [stripLit] at h
    subst h
    rfl
  | cons a as ih =>
    cases s with
    | nil => simp [stripLit] at h
    | cons b bs =>
      simp only [stripLit] at h ⊢
      by_cases hab : a == b
      · simp only [hab, if_true] at h ⊢
        exact ih bs h
      · simp [hab] at h

lemma idPlus_mono (s t : List Char) (h : idPlus s = true) :
    idPlus (s ++ t) = true := by
  cases s with
  | nil => simp [idPlus] at h
  | cons c cs => simpa [idPlus] using h

lemma litThenId_mono (lit s t : List Char) (h : litThenId lit s = true) :
    litThenId lit (s ++ t) = true := by
  unfold litThenId at h ⊢
  cases hs : stripLit lit s with
  | none => rw [hs] at h; exact absurd h (by simp)
  | some r =>
    rw [hs] at h
    rw [stripLit_mono lit s t r hs]
    exact idPlus_mono r t h

lemma optGroup_mono (grp : List Char) (cont : List Char → Bool)
    (hcont : ∀ s t, cont s = true → cont (s ++ t) = true)
    (s t : List Char) (h : optGroup grp cont s = true) :
    optGroup grp cont (s ++ t) = true := by
  unfold optGroup at h ⊢
  rcases Bool.or_eq_true_iff.mp h with h1 | h2
  · cases hs : stripLit grp s with
    | none => rw [hs] at h1; exact absurd h1 (by simp)
    | some r =>
      rw [hs] at h1
      rw [stripLit_mono grp s t r hs]
      simp [hcont r t h1]
  · simp [hcont s t h2]

lemma matchScheme_mono (cont : List Char → Bool)
    (hcont : ∀ s t, cont s = true → cont (s ++ t) = true)
    (s t : List Char) (h : matchScheme cont s = true) :
    matchScheme cont (s ++ t) = true := by
  unfold matchScheme at h ⊢
  cases hs : stripLit "http".data s with
  | none => rw [hs] at h; exact absurd h (by simp)
  | some r =>
    rw [hs] at h
    rw [stripLit_mono _ s t r hs]
    refine optGroup_mono "s".data _ ?_ r t h
    intro s' t' h'
    cases hs' : stripLit "://".data s' with
    | none => rw [hs'] at h'; exact absurd h' (by simp)
    | some r' =>
      rw [hs'] at h'
      rw [stripLit_mono _ s' t' r' hs']
      exact hcont r' t' h'

lemma litThenId_opt_mono (grp lit : List Char) (s t : List Char)
    (h : optGroup grp (litThenId lit) s = true) :
    optGroup grp (litThenId lit) (s ++ t) = true :=
  optGroup_mono grp _ (litThenId_mono lit) s t h

/-- Every pattern of `validate_youtube_url` is a prefix matcher. -/
lemma validateStr_append_mono (s : String) (t : List Char)
    (h : validateStr s = true) : validateStr ⟨s.data ++ t⟩ = true := by
  rw [validateStr_mk]
  unfold validateStr at h
  rcases Bool.or_eq_true_iff.mp h with h | h5
  rotate_left
  · unfold patShortsMobile at h5 ⊢
    simp [matchScheme_mono _ (litThenId_opt_mono "m.".data "youtube.com/shorts/".data)
      s.data t h5]
  rcases Bool.or_eq_true_iff.mp h with h | h4
  rotate_left
  · unfold patShorts at h4 ⊢
    simp [matchScheme_mono _ (litThenId_opt_mono "www.".data "youtube.com/shorts/".data)
      s.data t h4]
  rcases Bool.or_eq_true_iff.mp h with h | h3
  rotate_left
  · unfold patMobile at h3 ⊢
    simp [matchScheme_mono _ (litThenId_opt_mono "m.".data "youtube.com/watch?v=".data)
      s.data t h3]
  rcases Bool.or_eq_true_iff.mp h with h1 | h2
  · unfold patWatch at h1 ⊢
    simp [matchScheme_mono _ (litThenId_opt_mono "www.".data "youtube.com/watch?v=".data)
      s.data t h1]
  · unfold patShortlink at h2 ⊢
    simp [matchScheme_mono _ (litThenId_mono "youtu.be/".data) s.data t h2]

end YTCourse

/-- C9 counterexample: `"https://youtu.be/abc def"` contains a space so
it matches no accepted YouTube URL shape, yet `validate_youtube_url`
accepts it (`re.match` only checks a prefix) and `extract_video_id`
returns the garbage identifier `"abc def"` — the claim's rejection half
is false. -/
theorem C9_counterexample :
    YTCourse.validateStr "https://youtu.be/abc def" = true ∧
    YTCourse.extract_video_id_str "https://youtu.be/abc def" =
      some "abc def" := by
  constructor <;> decide

/-- C9 (amended): every string matching an accepted YouTube URL shape
(standard watch, `youtu.be` short-link, mobile watch, shorts — with or
without extra query parameters) is accepted by `validate_youtube_url`
and `extract_video_id` returns its identifier, and every string
`validate_youtube_url` rejects makes `extract_video_id` return `None`;
but validation is a prefix match — acceptance is closed under appending
arbitrary characters — so a malformed string extending an accepted
prefix is accepted rather than rejected. -/
theorem C9_accepted_shapes_and_prefix_acceptance :
    (∀ (shape : YTCourse.UrlShape) (secure : Bool) (id : List Char)
        (ps : List (List Char × List Char)),
      YTCourse.wfId id → YTCourse.wfParams ps →
      YTCourse.validateStr (YTCourse.renderUrl shape secure id ps) = true ∧
      YTCourse.extract_video_id_str (YTCourse.renderUrl shape secure id ps) =
        some ⟨id⟩) ∧
    (∀ s : String, YTCourse.validateStr s = false →
      YTCourse.extract_video_id_str s = none) ∧
    (∀ (s : String) (t : List Char), YTCourse.validateStr s = true →
      YTCourse.validateStr ⟨s.data ++ t⟩ = true) := by
  refine ⟨?_, ?_, ?_⟩
  · intro shape secure id ps hid hps
    cases shape with
    | watch www => exact YTCourse.shape_watch_ok www secure id ps hid hps
    | mobileWatch => exact YTCourse.shape_mobileWatch_ok secure id ps hid hps
    | shortlink => exact YTCourse.shape_shortlink_ok secure id ps hid hps
    | shorts host => exact YTCourse.shape_shorts_ok host secure id ps hid hps
  · intro s h
    unfold YTCourse.extract_video_id_str
    simp [h]
  · exact fun s t h => YTCourse.validateStr_append_mono s t h

/-- Witness for C9: the canonical short-link shape around the id
`dQw4w9WgXcQ`. -/
theorem C9_accepted_shapes_and_prefix_acceptance_witness :
    YTCourse.validateStr
        (YTCourse.renderUrl .shortlink true "dQw4w9WgXcQ".data []) = true ∧
    YTCourse.extract_video_id_str
        (YTCourse.renderUrl .shortlink true "dQw4w9WgXcQ".data []) =
      some ⟨"dQw4w9WgXcQ".data⟩ :=
  C9_accepted_shapes_and_prefix_acceptance.1 .shortlink true "dQw4w9WgXcQ".data []
    ⟨by decide, by decide⟩ (fun kv h => absurd h (List.not_mem_nil kv))

/-- C10: the validators are total at the public interface — both are
total functions of an arbitrary Python value in this embedding (the
source guards with `if not url or not isinstance(url, str)` and a broad
`except`), and on `None`, the empty string and every non-string value,
`validate_youtube_url` returns `False` and `extract_video_id` returns
`None`. -/
theorem C10_validators_total_interface (v : YTCourse.PyVal)
    (h : ∀ s, v = YTCourse.PyVal.strV s → s = "") :
    YTCourse.validate_youtube_url v = false ∧
    YTCourse.extract_video_id v = none := by
  cases v with
  | noneV => exact ⟨rfl, rfl⟩
  | otherV => exact ⟨rfl, rfl⟩
  | strV s =>
    have hs : s = "" := h s rfl
    subst hs
    exact ⟨by decide, by decide⟩

/-- Witness for C10: the `None` input. -/
theorem C10_validators_total_interface_witness :
    YTCourse.validate_youtube_url .noneV = false ∧
    YTCourse.extract_video_id .noneV = none :=
  C10_validators_total_interface .noneV (fun _ hs => by cases hs)
